import Mathlib

/-!
# Buffers and framebuffers of `deferred-gl`

A shallow embedding of `geometry.go` (type `buffer`) and `framebuffer.go`
(type `framebuffer`), together with a small model of the part of the OpenGL
driver these two files talk to.

* Go `int` is a 64-bit signed integer: values are `Int`, and every arithmetic
  result is reduced with `wrap64`.  `uint32(x)` is `toUint32`, `int32(x)` is
  `wrap32`.
* A method with a pointer receiver takes the driver state and the receiver and
  returns both, in an `Outcome` that also records whether the call panicked.
* The driver (`package gl`) is a store from buffer names to byte sequences
  plus a log of the calls that were issued.
-/

namespace DeferredGL

/-! ## Machine integers -/

/-- Reduction of an integer to the 64-bit signed range (Go `int` arithmetic wraps). -/
def wrap64 (x : Int) : Int :=
  (x + 9223372036854775808) % 18446744073709551616 - 9223372036854775808

/-- Conversion `int32(x)`. -/
def wrap32 (x : Int) : Int :=
  (x + 2147483648) % 4294967296 - 2147483648

/-- Conversion `uint32(x)`. -/
def toUint32 (x : Int) : Nat :=
  (x % 4294967296).toNat

/-! ## The driver -/

/-- One call into `package gl`, with the arguments it was given.  A data
pointer is `none` for `nil` and otherwise the bytes it points to. -/
inductive GlCall where
  | CreateBuffers (id : Nat)
  | NamedBufferStorage (buffer : Nat) (size : Int) (data : Option (List Nat)) (flags : Nat)
  | NamedBufferData (buffer : Nat) (size : Int) (data : Option (List Nat)) (usage : Nat)
  | CopyNamedBufferSubData (readBuffer writeBuffer : Nat) (readOffset writeOffset size : Int)
  | DeleteBuffers (id : Nat)
  | NamedBufferSubData (buffer : Nat) (offset size : Int) (data : Option (List Nat))
  | CreateFramebuffers (id : Nat)
  | NamedFramebufferDrawBuffers (framebuffer : Nat) (n : Int) (bufs : List Nat)
  | CheckNamedFramebufferStatus (framebuffer target : Nat)
  | NamedFramebufferTexture (framebuffer attachment texture : Nat) (level : Int)
  | NamedFramebufferRenderbuffer (framebuffer attachment renderbuffertarget renderbuffer : Nat)
  deriving DecidableEq

/-- Driver state: the live buffer objects with their data stores, the live
framebuffer names, the completeness status the driver reports for a
framebuffer name and target, and the log of calls issued so far. -/
structure Driver where
  buffers : List (Nat × List Nat)
  framebuffers : List Nat
  framebufferStatus : Nat → Nat → Nat
  calls : List GlCall

/-- Data store of the buffer object called `id`, `none` when the name is not live. -/
def bufferData : List (Nat × List Nat) → Nat → Option (List Nat)
  | [], _ => none
  | (k, v) :: rest, id => if k = id then some v else bufferData rest id

/-- Replace (or create) the data store of `id`. -/
def setBuffer (st : List (Nat × List Nat)) (id : Nat) (bytes : List Nat) :
    List (Nat × List Nat) :=
  (id, bytes) :: st.filter (fun e => decide (e.1 ≠ id))

/-- Remove the buffer object `id`. -/
def deleteBuffer (st : List (Nat × List Nat)) (id : Nat) : List (Nat × List Nat) :=
  st.filter (fun e => decide (e.1 ≠ id))

/-- A buffer name that is not live: one more than the largest live name. -/
def freshName (st : List (Nat × List Nat)) : Nat :=
  st.foldr (fun e m => max e.1 m) 0 + 1

/-- The `n` bytes the driver reads through a data pointer; a `nil` pointer
leaves the store uninitialised, which is modelled as zero bytes. -/
def readBytes (data : Option (List Nat)) (n : Nat) : List Nat :=
  match data with
  | none => List.replicate n 0
  | some bs => (bs ++ List.replicate (n - bs.length) 0).take n

/-- Append a call to the log. -/
def Driver.log (drv : Driver) (c : GlCall) : Driver :=
  { drv with calls := drv.calls ++ [c] }

/-- Data store of buffer `id` in a driver state. -/
def Driver.data (drv : Driver) (id : Nat) : Option (List Nat) :=
  bufferData drv.buffers id

/-- The call `gl.CreateBuffers(1, &id)`: a previously unused name, whose buffer object has
an empty data store. -/
def gl.CreateBuffers (drv : Driver) : Driver × Nat :=
  let id := freshName drv.buffers
  ({ drv with buffers := setBuffer drv.buffers id [] }.log (GlCall.CreateBuffers id), id)

/-- The call `gl.NamedBufferStorage`: a store of `size` bytes; an error, and no
change, when the name is not live or `size <= 0`. -/
def gl.NamedBufferStorage (drv : Driver) (buffer : Nat) (size : Int)
    (data : Option (List Nat)) (flags : Nat) : Driver :=
  let drv1 := drv.log (GlCall.NamedBufferStorage buffer size data flags)
  match drv.data buffer with
  | none => drv1
  | some _ =>
    if 0 < size then
      { drv1 with buffers := setBuffer drv.buffers buffer (readBytes data size.toNat) }
    else drv1

/-- The call `gl.NamedBufferData`: a new store of `size` bytes replacing the old one; an
error, and no change, when the name is not live or `size < 0`. -/
def gl.NamedBufferData (drv : Driver) (buffer : Nat) (size : Int)
    (data : Option (List Nat)) (usage : Nat) : Driver :=
  let drv1 := drv.log (GlCall.NamedBufferData buffer size data usage)
  match drv.data buffer with
  | none => drv1
  | some _ =>
    if 0 ≤ size then
      { drv1 with buffers := setBuffer drv.buffers buffer (readBytes data size.toNat) }
    else drv1

/-- Overwrite `src.length` bytes of `dst` starting at `offset`. -/
def overwrite (dst : List Nat) (offset : Nat) (src : List Nat) : List Nat :=
  dst.take offset ++ src ++ dst.drop (offset + src.length)

/-- The call `gl.CopyNamedBufferSubData`: copies `size` bytes between two data stores;
an error, and no change, when a name is not live, an argument is negative, a
range leaves its store, or the two ranges overlap in one buffer. -/
def gl.CopyNamedBufferSubData (drv : Driver) (readBuffer writeBuffer : Nat)
    (readOffset writeOffset size : Int) : Driver :=
  let drv1 := drv.log
    (GlCall.CopyNamedBufferSubData readBuffer writeBuffer readOffset writeOffset size)
  match drv.data readBuffer, drv.data writeBuffer with
  | some src, some dst =>
    if 0 ≤ readOffset ∧ 0 ≤ writeOffset ∧ 0 ≤ size
        ∧ readOffset + size ≤ src.length ∧ writeOffset + size ≤ dst.length
        ∧ (readBuffer = writeBuffer →
            readOffset + size ≤ writeOffset ∨ writeOffset + size ≤ readOffset) then
      let bytes := (src.drop readOffset.toNat).take size.toNat
      { drv1 with buffers := setBuffer drv.buffers writeBuffer (overwrite dst writeOffset.toNat bytes) }
    else drv1
  | _, _ => drv1

/-- The call `gl.DeleteBuffers(1, &id)`: the name is released; unused names are ignored. -/
def gl.DeleteBuffers (drv : Driver) (id : Nat) : Driver :=
  { drv with buffers := deleteBuffer drv.buffers id }.log (GlCall.DeleteBuffers id)

/-- The call `gl.NamedBufferSubData`: overwrites a range of the data store; an error, and
no change, when the name is not live or the range leaves the store. -/
def gl.NamedBufferSubData (drv : Driver) (buffer : Nat) (offset size : Int)
    (data : Option (List Nat)) : Driver :=
  let drv1 := drv.log (GlCall.NamedBufferSubData buffer offset size data)
  match drv.data buffer with
  | none => drv1
  | some dst =>
    if 0 ≤ offset ∧ 0 ≤ size ∧ offset + size ≤ dst.length then
      let bytes := readBytes data size.toNat
      { drv1 with buffers := setBuffer drv.buffers buffer (overwrite dst offset.toNat bytes) }
    else drv1

/-! ## Panics -/

/-- What a call was aborted by. -/
inductive Panic where
  /-- The call `log.Panicf(format, ...)`; the arguments are not rendered. -/
  | logPanicf (format : String)
  /-- A panic of the Go runtime. -/
  | runtime (msg : String)
  /-- A panic raised inside the helper `Pointer`. -/
  | pointer
  deriving DecidableEq

/-- State in which a method call ended, and the panic that ended it, if any. -/
structure Outcome (α : Type) where
  gl : Driver
  self : α
  panic : Option Panic

/-! ## `geometry.go`: buffers -/

/-- The struct `buffer`. -/
structure buffer where
  glId : Nat
  size : Int
  flags : Nat
  immutable : Bool
  deriving DecidableEq

/-- Modelled from the spec: the helper `Pointer` is defined outside
`geometry.go`, and `binary.Size` belongs to the Go library.  A value of type
`any` handed to an upload is described by what these two make of it:
`binarySize` is the result of `binary.Size(data)` (`-1` when the value has no
fixed size), `pointer` is the memory `Pointer(data)` points to, `none` when
`Pointer` aborts because the element type is not recognised (spec §7). -/
structure Data where
  binarySize : Int
  pointer : Option (List Nat)
  deriving DecidableEq

/-- The constructor `NewBuffer`. -/
def NewBuffer (drv : Driver) : Driver × buffer :=
  let r := gl.CreateBuffers drv
  (r.1, { glId := r.2, size := 0, flags := 0, immutable := false })

/-- The method `buffer.Id`. -/
def buffer.Id (vbo : buffer) : Nat := vbo.glId

/-- The method `buffer.Size`. -/
def buffer.Size (vbo : buffer) : Int := vbo.size

/-- The method `buffer.AllocateEmpty`. -/
def buffer.AllocateEmpty (drv : Driver) (vbo : buffer) (size flags : Int) : Outcome buffer :=
  if vbo.immutable then
    { gl := drv, self := vbo, panic := some (Panic.logPanicf "VBO is immutable") }
  else
    let drv1 := gl.NamedBufferStorage drv vbo.glId size none (toUint32 flags)
    { gl := drv1
      self := { vbo with size := size, flags := toUint32 flags, immutable := true }
      panic := none }

/-- The method `buffer.AllocateEmptyMutable`. -/
def buffer.AllocateEmptyMutable (drv : Driver) (vbo : buffer) (size usage : Int) :
    Outcome buffer :=
  if vbo.immutable then
    { gl := drv, self := vbo, panic := some (Panic.logPanicf "VBO is immutable") }
  else
    let drv1 := gl.NamedBufferData drv vbo.glId size none (toUint32 usage)
    { gl := drv1
      self := { vbo with flags := toUint32 usage, size := size }
      panic := none }

/-- The method `buffer.Allocate`. -/
def buffer.Allocate (drv : Driver) (vbo : buffer) (data : Data) (flags : Int) : Outcome buffer :=
  if vbo.immutable then
    { gl := drv, self := vbo, panic := some (Panic.logPanicf "VBO is immutable") }
  else
    let size := data.binarySize
    if size = -1 then
      { gl := drv, self := vbo
        panic := some (Panic.logPanicf "%v does not have a fixed size") }
    else
      match data.pointer with
      | none => { gl := drv, self := vbo, panic := some Panic.pointer }
      | some p =>
        let drv1 := gl.NamedBufferStorage drv vbo.glId size (some p) (toUint32 flags)
        { gl := drv1
          self := { vbo with size := size, flags := toUint32 flags, immutable := true }
          panic := none }

/-- The method `buffer.AllocateMutable`. -/
def buffer.AllocateMutable (drv : Driver) (vbo : buffer) (data : Data) (usage : Int) :
    Outcome buffer :=
  if vbo.immutable then
    { gl := drv, self := vbo, panic := some (Panic.logPanicf "VBO is immutable") }
  else
    let size := data.binarySize
    if size = -1 then
      { gl := drv, self := vbo
        panic := some (Panic.logPanicf "%v does not have a fixed size") }
    else
      match data.pointer with
      | none => { gl := drv, self := vbo, panic := some Panic.pointer }
      | some p =>
        let drv1 := gl.NamedBufferData drv vbo.glId size (some p) (toUint32 usage)
        { gl := drv1
          self := { vbo with flags := toUint32 usage, size := size }
          panic := none }

/-- The loop `for 0 < newSize && newSize < size { newSize += newSize / 4 }` of
`buffer.Grow`; `none` when the fuel is used up before the loop ends. -/
def growLoop : Nat → Int → Int → Option Int
  | 0, _, _ => none
  | fuel + 1, newSize, size =>
    if 0 < newSize ∧ newSize < size then
      growLoop fuel (wrap64 (newSize + Int.tdiv newSize 4)) size
    else some newSize

/-- The size selection of `buffer.Grow` (the statements between the early
return and the reallocation). -/
def growNewSize (fuel : Nat) (vboSize size : Int) : Option Int :=
  let newSize := vboSize
  let doubleSize := wrap64 (newSize + newSize)
  if size > doubleSize then
    some size
  else if vboSize < 16384 then
    some doubleSize
  else
    match growLoop fuel newSize size with
    | none => none
    | some newSize => if newSize ≤ 0 then some size else some newSize

/-- The reallocation of `buffer.Grow` (both branches of `if vbo.immutable`),
up to and including `vbo.size = newSize`. -/
def growRealloc (drv : Driver) (vbo : buffer) (newSize : Int) : Driver × buffer :=
  if vbo.immutable then
    let r := gl.CreateBuffers drv
    let newBufferId := r.2
    let drv2 := gl.NamedBufferStorage r.1 newBufferId newSize none vbo.flags
    let drv3 := gl.CopyNamedBufferSubData drv2 vbo.glId newBufferId 0 0 vbo.size
    let drv4 := gl.DeleteBuffers drv3 vbo.glId
    (drv4, { vbo with glId := newBufferId, size := newSize })
  else
    let r := gl.CreateBuffers drv
    let copyBufferId := r.2
    let drv2 := gl.NamedBufferStorage r.1 copyBufferId vbo.size none 0
    let drv3 := gl.CopyNamedBufferSubData drv2 vbo.glId copyBufferId 0 0 vbo.size
    let drv4 := gl.NamedBufferData drv3 vbo.glId newSize none vbo.flags
    let drv5 := gl.CopyNamedBufferSubData drv4 copyBufferId vbo.glId 0 0 vbo.size
    let drv6 := gl.DeleteBuffers drv5 copyBufferId
    (drv6, { vbo with size := newSize })

/-- The method `buffer.Grow`; `none` when the fuel does not suffice for its loop. -/
def buffer.Grow (fuel : Nat) (drv : Driver) (vbo : buffer) (size : Int) :
    Option (Driver × buffer × Bool) :=
  if size < vbo.size then
    some (drv, vbo, false)
  else
    match growNewSize fuel vbo.size size with
    | none => none
    | some newSize =>
      let r := growRealloc drv vbo newSize
      some (r.1, r.2, true)

/-- The method `buffer.Write`. -/
def buffer.Write (drv : Driver) (vbo : buffer) (offset : Int) (data : Data) : Outcome buffer :=
  let size := data.binarySize
  if size = -1 then
    { gl := drv, self := vbo, panic := some (Panic.logPanicf "%T does not have a fixed size") }
  else
    match data.pointer with
    | none => { gl := drv, self := vbo, panic := some Panic.pointer }
    | some p =>
      { gl := gl.NamedBufferSubData drv vbo.glId offset size (some p), self := vbo, panic := none }

/-- The method `buffer.WriteRange`. -/
def buffer.WriteRange (drv : Driver) (vbo : buffer) (offset size : Int) (data : Data) :
    Outcome buffer :=
  match data.pointer with
  | none => { gl := drv, self := vbo, panic := some Panic.pointer }
  | some p =>
    { gl := gl.NamedBufferSubData drv vbo.glId offset size (some p), self := vbo, panic := none }

/-- The method `buffer.WriteIndex`. -/
def buffer.WriteIndex (drv : Driver) (vbo : buffer) (index : Int) (data : Data) :
    Outcome buffer :=
  let size := data.binarySize
  if size = -1 then
    { gl := drv, self := vbo, panic := some (Panic.logPanicf "%T does not have a fixed size") }
  else
    match data.pointer with
    | none => { gl := drv, self := vbo, panic := some Panic.pointer }
    | some p =>
      { gl := gl.NamedBufferSubData drv vbo.glId (wrap64 (index * size)) size (some p)
        self := vbo, panic := none }

/-- One call on a buffer, as a value: the four allocation calls, the three
writes and `Grow`. -/
inductive Op where
  | Allocate (data : Data) (flags : Int)
  | AllocateMutable (data : Data) (usage : Int)
  | AllocateEmpty (size flags : Int)
  | AllocateEmptyMutable (size usage : Int)
  | Grow (size : Int)
  | Write (offset : Int) (data : Data)
  | WriteRange (offset size : Int) (data : Data)
  | WriteIndex (index : Int) (data : Data)
  deriving DecidableEq

/-- The four allocation calls. -/
def Op.isAllocation : Op → Bool
  | Op.Allocate _ _ => true
  | Op.AllocateMutable _ _ => true
  | Op.AllocateEmpty _ _ => true
  | Op.AllocateEmptyMutable _ _ => true
  | _ => false

/-- The two fixed-storage allocation calls. -/
def Op.isFixedAllocation : Op → Bool
  | Op.Allocate _ _ => true
  | Op.AllocateEmpty _ _ => true
  | _ => false

/-- The call `Grow`. -/
def Op.isGrow : Op → Bool
  | Op.Grow _ => true
  | _ => false

/-- Dispatch of one call; `none` only when `Grow` runs out of fuel. -/
def buffer.call (fuel : Nat) (drv : Driver) (vbo : buffer) : Op → Option (Outcome buffer)
  | Op.Allocate data flags => some (vbo.Allocate drv data flags)
  | Op.AllocateMutable data usage => some (vbo.AllocateMutable drv data usage)
  | Op.AllocateEmpty size flags => some (vbo.AllocateEmpty drv size flags)
  | Op.AllocateEmptyMutable size usage => some (vbo.AllocateEmptyMutable drv size usage)
  | Op.Grow size =>
    match vbo.Grow fuel drv size with
    | none => none
    | some r => some { gl := r.1, self := r.2.1, panic := none }
  | Op.Write offset data => some (vbo.Write drv offset data)
  | Op.WriteRange offset size data => some (vbo.WriteRange drv offset size data)
  | Op.WriteIndex index data => some (vbo.WriteIndex drv index data)

/-- A sequence of calls on one buffer, in order.  A call that panics is taken
to be recovered by the caller: the run goes on from the state the panic left. -/
def buffer.run (fuel : Nat) : Driver → buffer → List Op → Option (Driver × buffer)
  | drv, vbo, [] => some (drv, vbo)
  | drv, vbo, op :: ops =>
    match vbo.call fuel drv op with
    | none => none
    | some o => buffer.run fuel o.gl o.self ops

/-- A sequence of `Grow` calls; the result lists the buffer after each call. -/
def buffer.growAll (fuel : Nat) : Driver → buffer → List Int → Option (List buffer)
  | _, _, [] => some []
  | drv, vbo, n :: ns =>
    match vbo.Grow fuel drv n with
    | none => none
    | some r =>
      match buffer.growAll fuel r.1 r.2.1 ns with
      | none => none
      | some bs => some (r.2.1 :: bs)

/-- The flags (or usage) argument of an allocation call. -/
def Op.flagsArg : Op → Int
  | Op.Allocate _ flags => flags
  | Op.AllocateMutable _ usage => usage
  | Op.AllocateEmpty _ flags => flags
  | Op.AllocateEmptyMutable _ usage => usage
  | _ => 0

/-- The size an allocation call asks for: its size argument, or the
`binary.Size` of its data. -/
def Op.sizeArg : Op → Int
  | Op.Allocate data _ => data.binarySize
  | Op.AllocateMutable data _ => data.binarySize
  | Op.AllocateEmpty size _ => size
  | Op.AllocateEmptyMutable size _ => size
  | _ => 0

/-- Along the run of `ops` no allocation call returns: each one that is made
ends in a panic (and `Grow` never runs out of fuel). -/
def buffer.noAllocationReturns (fuel : Nat) : Driver → buffer → List Op → Bool
  | _, _, [] => true
  | drv, vbo, op :: ops =>
    match vbo.call fuel drv op with
    | none => false
    | some o =>
      (!op.isAllocation || o.panic.isSome) && buffer.noAllocationReturns fuel o.gl o.self ops

/-- A driver state without objects and without calls. -/
def Driver.initial : Driver :=
  { buffers := [], framebuffers := [], framebufferStatus := fun _ _ => 0, calls := [] }

/-- A mutable buffer of 20000 bytes, for the instances below. -/
def sampleBuffer : buffer := { glId := 1, size := 20000, flags := 35044, immutable := false }

/-- A driver state with one buffer object of four bytes. -/
def smallDriver : Driver :=
  { buffers := [(1, [10, 20, 30, 40])], framebuffers := [],
    framebufferStatus := fun _ _ => 0, calls := [] }

/-- The mutable buffer that owns the object of `smallDriver`. -/
def smallBuffer : buffer := { glId := 1, size := 4, flags := 35044, immutable := false }

/-- A new buffer after `AllocateEmpty(16, 0)`. -/
def allocatedOnce : Outcome buffer :=
  (NewBuffer Driver.initial).2.AllocateEmpty (NewBuffer Driver.initial).1 16 0

/-- A new buffer after `AllocateEmptyMutable(16, 35044)`. -/
def allocatedMutable : Outcome buffer :=
  (NewBuffer Driver.initial).2.AllocateEmptyMutable (NewBuffer Driver.initial).1 16 35044

/-! ## `framebuffer.go`: framebuffers -/

/-- Constants of `package gl`. -/
def gl.COLOR_ATTACHMENT0 : Int := 0x8CE0

/-- The attachment point `gl.DEPTH_ATTACHMENT`. -/
def gl.DEPTH_ATTACHMENT : Int := 0x8D00

/-- The attachment point `gl.STENCIL_ATTACHMENT`. -/
def gl.STENCIL_ATTACHMENT : Int := 0x8D20

/-- The attachment point `gl.DEPTH_STENCIL_ATTACHMENT`. -/
def gl.DEPTH_STENCIL_ATTACHMENT : Int := 0x821A

/-- The target `gl.RENDERBUFFER`. -/
def gl.RENDERBUFFER : Nat := 0x8D41

/-- The status `gl.FRAMEBUFFER_COMPLETE`. -/
def gl.FRAMEBUFFER_COMPLETE : Nat := 0x8CD5

/-- The status `gl.FRAMEBUFFER_INCOMPLETE_ATTACHMENT`. -/
def gl.FRAMEBUFFER_INCOMPLETE_ATTACHMENT : Nat := 0x8CD6

/-- The status `gl.FRAMEBUFFER_INCOMPLETE_MISSING_ATTACHMENT`. -/
def gl.FRAMEBUFFER_INCOMPLETE_MISSING_ATTACHMENT : Nat := 0x8CD7

/-- The status `gl.FRAMEBUFFER_INCOMPLETE_DRAW_BUFFER`. -/
def gl.FRAMEBUFFER_INCOMPLETE_DRAW_BUFFER : Nat := 0x8CDB

/-- The status `gl.FRAMEBUFFER_INCOMPLETE_READ_BUFFER`. -/
def gl.FRAMEBUFFER_INCOMPLETE_READ_BUFFER : Nat := 0x8CDC

/-- The status `gl.FRAMEBUFFER_UNSUPPORTED`. -/
def gl.FRAMEBUFFER_UNSUPPORTED : Nat := 0x8CDD

/-- The status `gl.FRAMEBUFFER_INCOMPLETE_MULTISAMPLE`. -/
def gl.FRAMEBUFFER_INCOMPLETE_MULTISAMPLE : Nat := 0x8D56

/-- The status `gl.FRAMEBUFFER_INCOMPLETE_LAYER_TARGETS`. -/
def gl.FRAMEBUFFER_INCOMPLETE_LAYER_TARGETS : Nat := 0x8DA8

/-- The constant `MaxAttachments`. -/
def MaxAttachments : Int := 8

/-- The struct `texture` of `texture.go`. -/
structure texture where
  glId : Nat
  dimensions : Nat
  width : Int
  height : Int
  depth : Int
  deriving DecidableEq

/-- The struct `renderbuffer`. -/
structure renderbuffer where
  glId : Nat
  deriving DecidableEq

/-- A two-dimensional texture, for the instances below. -/
def sampleTexture : texture :=
  { glId := 1, dimensions := 3553, width := 4, height := 4, depth := 1 }

/-- A value of the interface `UnboundTexture`: `none` is the nil interface. -/
abbrev UnboundTexture := Option texture

/-- A value of the interface `UnboundRenderbuffer`: `none` is the nil interface. -/
abbrev UnboundRenderbuffer := Option renderbuffer

/-- The struct `framebuffer`. -/
structure framebuffer where
  glId : Nat
  textures : List UnboundTexture
  renderbuffers : List UnboundRenderbuffer
  deriving DecidableEq

/-- An error value made by `fmt.Errorf(format, args...)`. -/
structure error where
  format : String
  args : List Nat
  deriving DecidableEq

/-- The call `fmt.Errorf`. -/
def fmt.Errorf (format : String) (args : List Nat) : error :=
  { format := format, args := args }

/-- The call `gl.CreateFramebuffers(1, &id)`: a previously unused framebuffer name. -/
def gl.CreateFramebuffers (drv : Driver) : Driver × Nat :=
  let id := drv.framebuffers.foldr max 0 + 1
  ({ drv with framebuffers := id :: drv.framebuffers }.log (GlCall.CreateFramebuffers id), id)

/-- The call `gl.NamedFramebufferDrawBuffers`; `bufs` is the array the pointer leads to. -/
def gl.NamedFramebufferDrawBuffers (drv : Driver) (framebuffer : Nat) (n : Int)
    (bufs : List Nat) : Driver :=
  drv.log (GlCall.NamedFramebufferDrawBuffers framebuffer n bufs)

/-- The call `gl.CheckNamedFramebufferStatus`: the status the driver reports, a `uint32`. -/
def gl.CheckNamedFramebufferStatus (drv : Driver) (framebuffer target : Nat) : Driver × Nat :=
  (drv.log (GlCall.CheckNamedFramebufferStatus framebuffer target),
    drv.framebufferStatus framebuffer target % 4294967296)

/-- The call `gl.NamedFramebufferTexture`. -/
def gl.NamedFramebufferTexture (drv : Driver) (framebuffer attachment texture : Nat)
    (level : Int) : Driver :=
  drv.log (GlCall.NamedFramebufferTexture framebuffer attachment texture level)

/-- The call `gl.NamedFramebufferRenderbuffer`. -/
def gl.NamedFramebufferRenderbuffer (drv : Driver)
    (framebuffer attachment renderbuffertarget renderbuffer : Nat) : Driver :=
  drv.log (GlCall.NamedFramebufferRenderbuffer framebuffer attachment renderbuffertarget
    renderbuffer)

/-- Read of a slice element `xs[i]`; `none` when the index is out of range. -/
def sliceGet {α : Type} (xs : List α) (i : Int) : Option α :=
  if 0 ≤ i then xs[i.toNat]? else none

/-- Store to a slice element `xs[i] = v`; `none` when the index is out of range. -/
def sliceSet {α : Type} (xs : List α) (i : Int) (v : α) : Option (List α) :=
  if 0 ≤ i ∧ i < xs.length then some (xs.set i.toNat v) else none

/-- The constructor `NewFramebuffer`. -/
def NewFramebuffer (drv : Driver) : Driver × framebuffer :=
  let r := gl.CreateFramebuffers drv
  (r.1, { glId := r.2
          textures := List.replicate (MaxAttachments + 2).toNat none
          renderbuffers := List.replicate (MaxAttachments + 2).toNat none })

/-- The method `framebuffer.Id`. -/
def framebuffer.Id (fb : framebuffer) : Nat := fb.glId

/-- The target a draw-target index is translated to by the loop of `BindTargets`. -/
def drawTarget (v : Int) : Nat :=
  if v ≤ 8 then toUint32 (wrap64 (gl.COLOR_ATTACHMENT0 + v)) else toUint32 v

/-- The method `framebuffer.BindTargets`. -/
def framebuffer.BindTargets (drv : Driver) (fb : framebuffer) (indices : List Int) :
    Outcome framebuffer :=
  let attachments := indices.map drawTarget
  let n : Int := indices.length
  match attachments with
  | [] =>
    { gl := drv, self := fb
      panic := some (Panic.runtime "index out of range [0] with length 0") }
  | a :: rest =>
    { gl := gl.NamedFramebufferDrawBuffers drv fb.glId (wrap32 n) (a :: rest)
      self := fb, panic := none }

/-- The method `framebuffer.Check`. -/
def framebuffer.Check (drv : Driver) (fb : framebuffer) (target : Nat) :
    Driver × framebuffer × Option error :=
  let r := gl.CheckNamedFramebufferStatus drv fb.glId target
  let status := r.2
  if status = gl.FRAMEBUFFER_COMPLETE then
    (r.1, fb, none)
  else if status = gl.FRAMEBUFFER_INCOMPLETE_ATTACHMENT then
    (r.1, fb, some (fmt.Errorf "an attachment is framebuffer incomplete" []))
  else if status = gl.FRAMEBUFFER_INCOMPLETE_MISSING_ATTACHMENT then
    (r.1, fb, some (fmt.Errorf "the framebuffer has no attachments" []))
  else if status = gl.FRAMEBUFFER_INCOMPLETE_DRAW_BUFFER then
    (r.1, fb, some (fmt.Errorf "the object type of a draw attachment is none" []))
  else if status = gl.FRAMEBUFFER_INCOMPLETE_READ_BUFFER then
    (r.1, fb, some (fmt.Errorf "the object type of the read attachment is none" []))
  else if status = gl.FRAMEBUFFER_UNSUPPORTED then
    (r.1, fb, some (fmt.Errorf
      "the combination of internal formats of the attachments is not supported" []))
  else if status = gl.FRAMEBUFFER_INCOMPLETE_MULTISAMPLE then
    (r.1, fb, some (fmt.Errorf "the attachments have different sampling" []))
  else if status = gl.FRAMEBUFFER_INCOMPLETE_LAYER_TARGETS then
    (r.1, fb, some (fmt.Errorf "FRAMEBUFFER_INCOMPLETE_LAYER_TARGETS" []))
  else
    (r.1, fb, some (fmt.Errorf "unknown framebuffer status: %X" [status]))

/-- The method `framebuffer.mapAttachmentIndex`. -/
def framebuffer.mapAttachmentIndex (_fb : framebuffer) (index : Int) : Int :=
  if index = gl.DEPTH_ATTACHMENT ∨ index = gl.DEPTH_STENCIL_ATTACHMENT then
    0
  else if index = gl.STENCIL_ATTACHMENT then
    1
  else
    wrap64 (index + 2)

/-- The method `framebuffer.AttachTextureLevel`. -/
def framebuffer.AttachTextureLevel (drv : Driver) (fb : framebuffer) (index : Int)
    (tex : UnboundTexture) (level : Int) : Outcome framebuffer :=
  match sliceSet fb.textures (fb.mapAttachmentIndex index) tex with
  | none => { gl := drv, self := fb, panic := some (Panic.runtime "index out of range") }
  | some textures =>
    let fb1 : framebuffer := { fb with textures := textures }
    let index1 := if index ≤ MaxAttachments then wrap64 (index + gl.COLOR_ATTACHMENT0) else index
    match tex with
    | none =>
      { gl := drv, self := fb1
        panic := some (Panic.runtime "invalid memory address or nil pointer dereference") }
    | some t =>
      { gl := gl.NamedFramebufferTexture drv fb.glId (toUint32 index1) t.glId (wrap32 level)
        self := fb1, panic := none }

/-- The method `framebuffer.AttachTexture`. -/
def framebuffer.AttachTexture (drv : Driver) (fb : framebuffer) (index : Int)
    (tex : UnboundTexture) : Outcome framebuffer :=
  fb.AttachTextureLevel drv index tex 0

/-- The method `framebuffer.AttachRenderbuffer`. -/
def framebuffer.AttachRenderbuffer (drv : Driver) (fb : framebuffer) (index : Int)
    (rb : UnboundRenderbuffer) : Outcome framebuffer :=
  match sliceSet fb.renderbuffers (fb.mapAttachmentIndex index) rb with
  | none => { gl := drv, self := fb, panic := some (Panic.runtime "index out of range") }
  | some renderbuffers =>
    let fb1 : framebuffer := { fb with renderbuffers := renderbuffers }
    let index1 := if index ≤ MaxAttachments then wrap64 (index + gl.COLOR_ATTACHMENT0) else index
    match rb with
    | none =>
      { gl := drv, self := fb1
        panic := some (Panic.runtime "invalid memory address or nil pointer dereference") }
    | some r =>
      { gl := gl.NamedFramebufferRenderbuffer drv fb.glId (toUint32 index1) gl.RENDERBUFFER r.glId
        self := fb1, panic := none }

/-- The method `framebuffer.GetTexture`; `none` when the slot read panics. -/
def framebuffer.GetTexture (fb : framebuffer) (index : Int) : Option UnboundTexture :=
  sliceGet fb.textures (fb.mapAttachmentIndex index)

/-- The method `framebuffer.GetRenderbuffer`; `none` when the slot read panics. -/
def framebuffer.GetRenderbuffer (fb : framebuffer) (index : Int) : Option UnboundRenderbuffer :=
  sliceGet fb.renderbuffers (fb.mapAttachmentIndex index)

/-- An index the attachment table is addressed with: a colour index
`0 .. MaxAttachments - 1` or one of the three depth and stencil points. -/
def IsAttachmentIndex (i : Int) : Prop :=
  (0 ≤ i ∧ i < MaxAttachments) ∨ i = gl.DEPTH_ATTACHMENT ∨ i = gl.STENCIL_ATTACHMENT
    ∨ i = gl.DEPTH_STENCIL_ATTACHMENT

/-- The seven status codes `Check` names besides `FRAMEBUFFER_COMPLETE`. -/
def incompleteCodes : List Nat :=
  [gl.FRAMEBUFFER_INCOMPLETE_ATTACHMENT, gl.FRAMEBUFFER_INCOMPLETE_MISSING_ATTACHMENT,
    gl.FRAMEBUFFER_INCOMPLETE_DRAW_BUFFER, gl.FRAMEBUFFER_INCOMPLETE_READ_BUFFER,
    gl.FRAMEBUFFER_UNSUPPORTED, gl.FRAMEBUFFER_INCOMPLETE_MULTISAMPLE,
    gl.FRAMEBUFFER_INCOMPLETE_LAYER_TARGETS]

/-! ## Words of the specification -/

/-- The sequence `t0 = s`, `t(k+1) = t(k) + floor(t(k) / 4)` over the unbounded integers. -/
def growthSeq (s : Int) : Nat → Int
  | 0 => s
  | k + 1 => growthSeq s k + growthSeq s k / 4

/-! ## Integer arithmetic of `Grow` -/

theorem wrap64_eq {x : Int} (h1 : -9223372036854775808 ≤ x) (h2 : x < 9223372036854775808) :
    wrap64 x = x := by
  unfold wrap64; omega

theorem wrap64_range (x : Int) :
    -9223372036854775808 ≤ wrap64 x ∧ wrap64 x < 9223372036854775808 := by
  unfold wrap64; omega

theorem growLoop_succ (fuel : Nat) (t n : Int) :
    growLoop (fuel + 1) t n =
      if 0 < t ∧ t < n then growLoop fuel (wrap64 (t + Int.tdiv t 4)) n else some t := rfl

/-- One pass through the loop body either overflows to a non-positive value or
adds a quarter. -/
theorem loop_body (t n : Int) (h0 : 0 < t) (hn : n < 9223372036854775808) (ht : t < n) :
    wrap64 (t + Int.tdiv t 4) < 0 ∨ wrap64 (t + Int.tdiv t 4) = t + t / 4 := by
  rw [Int.tdiv_eq_ediv (by omega) (by omega)]
  unfold wrap64; omega

/-- From a start of at least 16384 and a request of at most twice the start the
loop ends within four passes: its result is non-positive (overflow) or at least
the request and the start. -/
theorem growLoop_total (fuel : Nat) (s n : Int) (hs : 16384 ≤ s)
    (hn : n ≤ 2 * s) (h2 : 2 * s < 9223372036854775808) :
    ∃ r, growLoop (fuel + 5) s n = some r ∧ (r ≤ 0 ∨ (n ≤ r ∧ s ≤ r)) := by
  have hn63 : n < 9223372036854775808 := by omega
  rw [growLoop_succ]
  by_cases c0 : 0 < s ∧ s < n
  swap
  · exact ⟨s, by rw [if_neg c0], Or.inr ⟨by omega, le_refl _⟩⟩
  rw [if_pos c0, growLoop_succ]
  rcases loop_body s n c0.1 hn63 c0.2 with h1 | h1
  · exact ⟨_, by rw [if_neg (by omega)], Or.inl (by omega)⟩
  rw [h1]
  by_cases c1 : 0 < s + s / 4 ∧ s + s / 4 < n
  swap
  · exact ⟨_, by rw [if_neg c1], Or.inr ⟨by omega, by omega⟩⟩
  rw [if_pos c1, growLoop_succ]
  rcases loop_body _ n c1.1 hn63 c1.2 with h2 | h2
  · exact ⟨_, by rw [if_neg (by omega)], Or.inl (by omega)⟩
  rw [h2]
  by_cases c2 : 0 < s + s / 4 + (s + s / 4) / 4 ∧ s + s / 4 + (s + s / 4) / 4 < n
  swap
  · exact ⟨_, by rw [if_neg c2], Or.inr ⟨by omega, by omega⟩⟩
  rw [if_pos c2, growLoop_succ]
  rcases loop_body _ n c2.1 hn63 c2.2 with h3 | h3
  · exact ⟨_, by rw [if_neg (by omega)], Or.inl (by omega)⟩
  rw [h3]
  by_cases c3 : 0 < s + s / 4 + (s + s / 4) / 4 + (s + s / 4 + (s + s / 4) / 4) / 4 ∧
      s + s / 4 + (s + s / 4) / 4 + (s + s / 4 + (s + s / 4) / 4) / 4 < n
  swap
  · exact ⟨_, by rw [if_neg c3], Or.inr ⟨by omega, by omega⟩⟩
  rw [if_pos c3, growLoop_succ]
  rcases loop_body _ n c3.1 hn63 c3.2 with h4 | h4
  · exact ⟨_, by rw [if_neg (by omega)], Or.inl (by omega)⟩
  rw [h4]
  exact ⟨_, by rw [if_neg (by omega)], Or.inr ⟨by omega, by omega⟩⟩

/-- The size selection always ends, with a size at least the request and at
least the old size, whenever the request is not below the old size. -/
theorem growNewSize_total (fuel : Nat) (s n : Int) (hf : 5 ≤ fuel) (hsn : s ≤ n) :
    ∃ r, growNewSize fuel s n = some r ∧ n ≤ r ∧ s ≤ r := by
  obtain ⟨f, rfl⟩ : ∃ f, fuel = f + 5 := ⟨fuel - 5, by omega⟩
  unfold growNewSize
  simp only
  by_cases c1 : n > wrap64 (s + s)
  · exact ⟨n, by rw [if_pos c1], le_refl _, hsn⟩
  rw [if_neg c1]
  have hw := wrap64_range (s + s)
  by_cases c2 : s < 16384
  · exact ⟨_, by rw [if_pos c2], by omega, by unfold wrap64 at c1 ⊢; omega⟩
  rw [if_neg c2]
  have h2s : wrap64 (s + s) = s + s := by unfold wrap64 at c1 ⊢; omega
  obtain ⟨r, hr, hr2⟩ := growLoop_total f s n (by omega) (by omega) (by omega)
  rw [hr]
  by_cases c3 : r ≤ 0
  · exact ⟨n, by simp [c3], le_refl _, hsn⟩
  · exact ⟨r, by simp [c3], by omega, by omega⟩

theorem growthSeq_shift (s : Int) (k : Nat) :
    growthSeq s (k + 1) = growthSeq (s + s / 4) k := by
  induction k with
  | zero => rfl
  | succ k ih =>
    show growthSeq s (k + 1) + growthSeq s (k + 1) / 4 = _
    rw [ih]; rfl

/-- Without overflow the loop returns the first term of `growthSeq` that
reaches the request. -/
theorem growLoop_first_term (fuel : Nat) : ∀ (t n r : Int), 0 < t →
    (∀ k, (∀ j, j < k → growthSeq t j < n) → growthSeq t k < 9223372036854775808) →
    growLoop fuel t n = some r →
    ∃ k, r = growthSeq t k ∧ n ≤ growthSeq t k ∧ ∀ j, j < k → growthSeq t j < n := by
  induction fuel with
  | zero => intro t n r _ _ h; simp [growLoop] at h
  | succ fuel ih =>
    intro t n r h0 hov h
    rw [growLoop_succ] at h
    by_cases c : 0 < t ∧ t < n
    · rw [if_pos c] at h
      have h1 : growthSeq t 1 < 9223372036854775808 :=
        hov 1 (fun j hj => by
          have : j = 0 := by omega
          subst this; exact c.2)
      have h1' : t + t / 4 < 9223372036854775808 := h1
      have hw : wrap64 (t + Int.tdiv t 4) = t + t / 4 := by
        rw [Int.tdiv_eq_ediv (by omega) (by omega)]
        apply wrap64_eq <;> omega
      rw [hw] at h
      have hov' : ∀ k, (∀ j, j < k → growthSeq (t + t / 4) j < n) →
          growthSeq (t + t / 4) k < 9223372036854775808 := by
        intro k hk
        rw [← growthSeq_shift]
        apply hov
        intro j hj
        cases j with
        | zero => exact c.2
        | succ j => rw [growthSeq_shift]; exact hk j (by omega)
      obtain ⟨k, hk1, hk2, hk3⟩ := ih (t + t / 4) n r (by omega) hov' h
      refine ⟨k + 1, ?_, ?_, ?_⟩
      · rw [growthSeq_shift]; exact hk1
      · rw [growthSeq_shift]; exact hk2
      · intro j hj
        cases j with
        | zero => exact c.2
        | succ j => rw [growthSeq_shift]; exact hk3 j (by omega)
    · rw [if_neg c] at h
      have hr : r = t := by simpa using h.symm
      subst hr
      exact ⟨0, rfl, by show n ≤ r; omega, fun j hj => by omega⟩

theorem Grow_lt (fuel : Nat) (drv : Driver) (vbo : buffer) (n : Int) (h : n < vbo.size) :
    vbo.Grow fuel drv n = some (drv, vbo, false) := by
  unfold buffer.Grow; rw [if_pos h]

theorem Grow_ge (fuel : Nat) (drv : Driver) (vbo : buffer) (n r : Int) (h : ¬ n < vbo.size)
    (hr : growNewSize fuel vbo.size n = some r) :
    vbo.Grow fuel drv n = some ((growRealloc drv vbo r).1, (growRealloc drv vbo r).2, true) := by
  unfold buffer.Grow; rw [if_neg h, hr]

theorem growRealloc_size (drv : Driver) (vbo : buffer) (r : Int) :
    (growRealloc drv vbo r).2.size = r := by
  unfold growRealloc; split <;> rfl

theorem growRealloc_flags (drv : Driver) (vbo : buffer) (r : Int) :
    (growRealloc drv vbo r).2.flags = vbo.flags ∧
      (growRealloc drv vbo r).2.immutable = vbo.immutable := by
  unfold growRealloc; split <;> exact ⟨rfl, rfl⟩

/-- With fuel for five loop tests `Grow` returns on every input, and the size
it leaves is at least the request and at least the old size. -/
theorem Grow_total (fuel : Nat) (hf : 5 ≤ fuel) (drv : Driver) (vbo : buffer) (n : Int) :
    ∃ drv' vbo' ret, vbo.Grow fuel drv n = some (drv', vbo', ret)
      ∧ n ≤ vbo'.size ∧ vbo.size ≤ vbo'.size ∧ (ret = false ↔ n < vbo.size)
      ∧ vbo'.flags = vbo.flags ∧ vbo'.immutable = vbo.immutable := by
  by_cases h : n < vbo.size
  · exact ⟨drv, vbo, false, Grow_lt fuel drv vbo n h, by omega, le_refl _, by simp [h], rfl, rfl⟩
  · obtain ⟨r, hr, h1, h2⟩ := growNewSize_total fuel vbo.size n hf (by omega)
    refine ⟨_, _, true, Grow_ge fuel drv vbo n r h hr, ?_, ?_, by simp [h], ?_, ?_⟩
    · rw [growRealloc_size]; exact h1
    · rw [growRealloc_size]; exact h2
    · exact (growRealloc_flags drv vbo r).1
    · exact (growRealloc_flags drv vbo r).2

/-- Both overflows at work: doubling `2^62` wraps to a negative value, so the
request itself is taken; and from `4 * 10^18` the fourth 1.25x step wraps to
a negative value, so the request `8 * 10^18` is taken. -/
theorem growNewSize_overflow_examples :
    wrap64 (4611686018427387904 + 4611686018427387904) = -9223372036854775808
    ∧ growNewSize 5 4611686018427387904 4611686018427387905 = some 4611686018427387905
    ∧ growLoop 5 4000000000000000000 8000000000000000000 = some (-8681119073709551616)
    ∧ growNewSize 5 4000000000000000000 8000000000000000000 = some 8000000000000000000 := by
  refine ⟨by decide, by decide, by decide, by decide⟩

/-! ## The buffer store -/

theorem bufferData_deleteBuffer (st : List (Nat × List Nat)) (id k : Nat) :
    bufferData (deleteBuffer st id) k = if k = id then none else bufferData st k := by
  induction st with
  | nil => simp [deleteBuffer, bufferData]
  | cons e st ih =>
    obtain ⟨a, b⟩ := e
    unfold deleteBuffer at ih ⊢
    by_cases ha : a = id
    · subst ha
      simp only [List.filter_cons, ne_eq, not_true_eq_false, decide_False, Bool.false_eq_true,
        if_false, ih, bufferData]
      by_cases hk : k = a
      · simp [hk]
      · simp [hk, Ne.symm hk]
    · simp only [List.filter_cons, ne_eq, ha, not_false_eq_true, decide_True, if_true,
        bufferData, ih]
      by_cases hk : k = id
      · subst hk; simp [ha]
      · simp [hk]

theorem bufferData_setBuffer (st : List (Nat × List Nat)) (id k : Nat) (bytes : List Nat) :
    bufferData (setBuffer st id bytes) k = if k = id then some bytes else bufferData st k := by
  have h := bufferData_deleteBuffer st id k
  unfold deleteBuffer at h
  unfold setBuffer
  simp only [bufferData, h]
  by_cases hk : k = id
  · simp [hk]
  · simp [hk, Ne.symm hk]

theorem bufferData_le (st : List (Nat × List Nat)) (k : Nat) (v : List Nat)
    (h : bufferData st k = some v) : k ≤ st.foldr (fun e m => max e.1 m) 0 := by
  induction st with
  | nil => simp [bufferData] at h
  | cons e st ih =>
    obtain ⟨a, b⟩ := e
    simp only [bufferData] at h
    simp only [List.foldr_cons]
    by_cases ha : a = k
    · omega
    · rw [if_neg ha] at h
      have := ih h
      omega

theorem bufferData_freshName (st : List (Nat × List Nat)) :
    bufferData st (freshName st) = none := by
  cases h : bufferData st (freshName st) with
  | none => rfl
  | some v =>
    have := bufferData_le st _ v h
    unfold freshName at this
    omega

theorem overwrite_zero (dst src : List Nat) :
    overwrite dst 0 src = src ++ dst.drop src.length := by
  simp [overwrite]

theorem data_log (drv : Driver) (c : GlCall) (k : Nat) : (drv.log c).data k = drv.data k := rfl

theorem CreateBuffers_data (drv : Driver) (k : Nat) :
    (gl.CreateBuffers drv).1.data k
      = if k = (gl.CreateBuffers drv).2 then some [] else drv.data k := by
  simp only [gl.CreateBuffers, Driver.data, Driver.log, bufferData_setBuffer]

theorem CreateBuffers_fresh (drv : Driver) : drv.data (gl.CreateBuffers drv).2 = none :=
  bufferData_freshName drv.buffers

theorem NamedBufferStorage_data (drv : Driver) (b : Nat) (size : Int) (data : Option (List Nat))
    (flags : Nat) (x : List Nat) (hlive : drv.data b = some x) (k : Nat) :
    (gl.NamedBufferStorage drv b size data flags).data k
      = if k = b ∧ 0 < size then some (readBytes data size.toNat) else drv.data k := by
  unfold gl.NamedBufferStorage
  simp only [hlive]
  by_cases hs : 0 < size
  · simp only [hs, if_true, and_true, Driver.data, Driver.log, bufferData_setBuffer]
  · simp only [hs, if_false, and_false, data_log]

theorem NamedBufferData_data (drv : Driver) (b : Nat) (size : Int) (data : Option (List Nat))
    (usage : Nat) (x : List Nat) (hlive : drv.data b = some x) (k : Nat) :
    (gl.NamedBufferData drv b size data usage).data k
      = if k = b ∧ 0 ≤ size then some (readBytes data size.toNat) else drv.data k := by
  unfold gl.NamedBufferData
  simp only [hlive]
  by_cases hs : 0 ≤ size
  · simp only [hs, if_true, and_true, Driver.data, Driver.log, bufferData_setBuffer]
  · simp only [hs, if_false, and_false, data_log]

theorem CopyNamedBufferSubData_data (drv : Driver) (rd wr : Nat) (size : Int)
    (src dst : List Nat) (hne : rd ≠ wr) (hsrc : drv.data rd = some src)
    (hdst : drv.data wr = some dst) (h0 : 0 ≤ size) (h1 : size ≤ src.length)
    (h2 : size ≤ dst.length) (k : Nat) :
    (gl.CopyNamedBufferSubData drv rd wr 0 0 size).data k
      = if k = wr then some (src.take size.toNat ++ dst.drop size.toNat) else drv.data k := by
  unfold gl.CopyNamedBufferSubData
  simp only [hsrc, hdst]
  have hc : 0 ≤ (0 : Int) ∧ 0 ≤ (0 : Int) ∧ 0 ≤ size ∧ 0 + size ≤ (src.length : Int)
      ∧ 0 + size ≤ (dst.length : Int) ∧ (rd = wr → 0 + size ≤ 0 ∨ 0 + size ≤ 0) :=
    ⟨le_refl _, le_refl _, h0, by omega, by omega, fun e => absurd e hne⟩
  rw [if_pos hc]
  have hl : (List.take size.toNat (List.drop (0 : Int).toNat src)).length = size.toNat := by
    simp only [Int.toNat_zero, List.drop_zero, List.length_take]
    omega
  simp only [Driver.data, Driver.log, bufferData_setBuffer, Int.toNat_zero, overwrite_zero]
  simp only [Int.toNat_zero] at hl
  rw [hl]
  simp

theorem DeleteBuffers_data (drv : Driver) (id k : Nat) :
    (gl.DeleteBuffers drv id).data k = if k = id then none else drv.data k := by
  simp only [gl.DeleteBuffers, Driver.data, Driver.log, bufferData_deleteBuffer]

/-! ## Claims about `Grow` -/

/-- C1: the size after `Grow(n)` is at least `n` and at least the size before,
for every buffer and every request, overflow of the doubling or of the 1.25x
step included (all arithmetic is wrapped to 64 bits); hence along every
sequence of `Grow` calls the sizes are non-decreasing and each is at least the
request of its call.  Neither the sign of the size nor the order of the
requests is needed. -/
theorem Grow_size_monotone (fuel : Nat) (hf : 5 ≤ fuel) (drv : Driver) (vbo : buffer) :
    (∀ n : Int, ∃ drv' vbo' ret, vbo.Grow fuel drv n = some (drv', vbo', ret)
        ∧ n ≤ vbo'.size ∧ vbo.size ≤ vbo'.size)
    ∧ (∀ ns : List Int, ∃ bs, buffer.growAll fuel drv vbo ns = some bs
        ∧ List.Forall₂ (fun n b => n ≤ b.size) ns bs
        ∧ List.Chain (fun a b => a.size ≤ b.size) vbo bs) := by
  constructor
  · intro n
    obtain ⟨drv', vbo', ret, h, h1, h2, _⟩ := Grow_total fuel hf drv vbo n
    exact ⟨drv', vbo', ret, h, h1, h2⟩
  · intro ns
    induction ns generalizing drv vbo with
    | nil => exact ⟨[], rfl, List.Forall₂.nil, List.Chain.nil⟩
    | cons n ns ih =>
      obtain ⟨drv', vbo', ret, h, h1, h2, _⟩ := Grow_total fuel hf drv vbo n
      obtain ⟨bs, hb, hb1, hb2⟩ := ih drv' vbo'
      refine ⟨vbo' :: bs, ?_, List.Forall₂.cons h1 hb1, List.Chain.cons h2 hb2⟩
      simp only [buffer.growAll, h, hb]

/-- More fuel does not change a result. -/
theorem growLoop_more_fuel (fuel extra : Nat) : ∀ (t n r : Int),
    growLoop fuel t n = some r → growLoop (fuel + extra) t n = some r := by
  induction fuel with
  | zero => intro t n r h; simp [growLoop] at h
  | succ fuel ih =>
    intro t n r h
    rw [show fuel + 1 + extra = (fuel + extra) + 1 by omega, growLoop_succ]
    rw [growLoop_succ] at h
    by_cases c : 0 < t ∧ t < n
    · rw [if_pos c] at h ⊢; exact ih _ _ _ h
    · rw [if_neg c] at h ⊢; exact h

theorem growNewSize_more_fuel (fuel extra : Nat) (s n r : Int)
    (h : growNewSize fuel s n = some r) : growNewSize (fuel + extra) s n = some r := by
  unfold growNewSize at h ⊢
  simp only at h ⊢
  by_cases c1 : n > wrap64 (s + s)
  · rw [if_pos c1] at h ⊢; exact h
  rw [if_neg c1] at h ⊢
  by_cases c2 : s < 16384
  · rw [if_pos c2] at h ⊢; exact h
  rw [if_neg c2] at h ⊢
  cases hl : growLoop fuel s n with
  | none => rw [hl] at h; simp at h
  | some x => rw [hl] at h; rw [growLoop_more_fuel fuel extra s n x hl]; exact h

/-- Value of the size selection when nothing overflows. -/
theorem growNewSize_exact (fuel : Nat) (hf : 5 ≤ fuel) (s n : Int) (hs : 0 ≤ s) (hn : s ≤ n)
    (h2 : 2 * s < 9223372036854775808)
    (hov : n ≤ 2 * s → 16384 ≤ s → ∀ k, (∀ j, j < k → growthSeq s j < n) →
      growthSeq s k < 9223372036854775808) :
    ∃ r, growNewSize fuel s n = some r
      ∧ (2 * s < n → r = n)
      ∧ (n ≤ 2 * s → s < 16384 → r = 2 * s)
      ∧ (n ≤ 2 * s → 16384 ≤ s →
          ∃ k, r = growthSeq s k ∧ n ≤ growthSeq s k ∧ ∀ j, j < k → growthSeq s j < n) := by
  obtain ⟨f, rfl⟩ : ∃ f, fuel = f + 5 := ⟨fuel - 5, by omega⟩
  have hd : wrap64 (s + s) = 2 * s := by rw [wrap64_eq (by omega) (by omega)]; omega
  unfold growNewSize
  simp only [hd]
  by_cases c1 : n > 2 * s
  · exact ⟨n, by rw [if_pos c1], fun _ => rfl, fun h => by omega, fun h => by omega⟩
  rw [if_neg c1]
  by_cases c2 : s < 16384
  · exact ⟨2 * s, by rw [if_pos c2], fun h => by omega, fun _ _ => rfl, fun _ h => by omega⟩
  rw [if_neg c2]
  obtain ⟨r, hr, -⟩ := growLoop_total f s n (by omega) (by omega) h2
  obtain ⟨k, hk1, hk2, hk3⟩ :=
    growLoop_first_term (f + 5) s n r (by omega) (hov (by omega) (by omega)) hr
  have hpos : ¬ r ≤ 0 := by omega
  refine ⟨r, by rw [hr]; simp [hpos], fun h => by omega, fun _ h => by omega, fun _ _ => ?_⟩
  exact ⟨k, hk1, hk2, hk3⟩

/-- C2: growth-size selection of `Grow`.  For a size `s >= 0` and a request
`n >= s`, when neither `2 * s` nor a term of the 1.25x sequence computed on the
way leaves the 64-bit range, `Grow(n)` returns true and the new size is `n` if
`n > 2 * s`, else `2 * s` if `s < 16384`, else the first term `>= n` of
`t0 = s`, `t(k+1) = t(k) + floor(t(k) / 4)`.  In particular `(8192, 9000)`
gives `16384`, `(20000, 50000)` gives `50000` and `(20000, 22000)` gives `25000`. -/
theorem Grow_size_selection (fuel : Nat) (hf : 5 ≤ fuel) (drv : Driver) (vbo : buffer) (n : Int)
    (hs : 0 ≤ vbo.size) (hn : vbo.size ≤ n) (h2 : 2 * vbo.size < 9223372036854775808)
    (hov : n ≤ 2 * vbo.size → 16384 ≤ vbo.size →
      ∀ k, (∀ j, j < k → growthSeq vbo.size j < n) →
        growthSeq vbo.size k < 9223372036854775808) :
    (∃ drv' vbo', vbo.Grow fuel drv n = some (drv', vbo', true)
      ∧ (2 * vbo.size < n → vbo'.size = n)
      ∧ (n ≤ 2 * vbo.size → vbo.size < 16384 → vbo'.size = 2 * vbo.size)
      ∧ (n ≤ 2 * vbo.size → 16384 ≤ vbo.size →
          ∃ k, vbo'.size = growthSeq vbo.size k ∧ n ≤ growthSeq vbo.size k
            ∧ ∀ j, j < k → growthSeq vbo.size j < n))
    ∧ (∃ drv' vbo', ({ vbo with size := 8192 } : buffer).Grow fuel drv 9000
        = some (drv', vbo', true) ∧ vbo'.size = 16384)
    ∧ (∃ drv' vbo', ({ vbo with size := 20000 } : buffer).Grow fuel drv 50000
        = some (drv', vbo', true) ∧ vbo'.size = 50000)
    ∧ (∃ drv' vbo', ({ vbo with size := 20000 } : buffer).Grow fuel drv 22000
        = some (drv', vbo', true) ∧ vbo'.size = 25000) := by
  obtain ⟨f, rfl⟩ : ∃ f, fuel = f + 5 := ⟨fuel - 5, by omega⟩
  refine ⟨?_, ?_, ?_, ?_⟩
  · obtain ⟨r, hr, h1, h3, h4⟩ := growNewSize_exact (f + 5) hf vbo.size n hs hn h2 hov
    refine ⟨_, _, Grow_ge (f + 5) drv vbo n r (by omega) hr, ?_, ?_, ?_⟩
    · rw [growRealloc_size]; exact h1
    · rw [growRealloc_size]; exact h3
    · rw [growRealloc_size]; exact h4
  · have e : growNewSize (5 + f) 8192 9000 = some 16384 :=
      growNewSize_more_fuel 5 f _ _ _ (by decide)
    rw [Nat.add_comm] at e
    refine ⟨_, _, Grow_ge (f + 5) drv _ 9000 16384 (by simp) e, ?_⟩
    rw [growRealloc_size]
  · have e : growNewSize (5 + f) 20000 50000 = some 50000 :=
      growNewSize_more_fuel 5 f _ _ _ (by decide)
    rw [Nat.add_comm] at e
    refine ⟨_, _, Grow_ge (f + 5) drv _ 50000 50000 (by simp) e, ?_⟩
    rw [growRealloc_size]
  · have e : growNewSize (5 + f) 20000 22000 = some 25000 :=
      growNewSize_more_fuel 5 f _ _ _ (by decide)
    rw [Nat.add_comm] at e
    refine ⟨_, _, Grow_ge (f + 5) drv _ 22000 25000 (by simp) e, ?_⟩
    rw [growRealloc_size]

/-- C3: `Grow(n)` returns false exactly when `n < size` and true otherwise; a
call that returns false leaves identifier, size, flags and immutable flag as
they were, issues no driver call and leaves every data store untouched. -/
theorem Grow_false_iff_noop (fuel : Nat) (hf : 5 ≤ fuel) (drv : Driver) (vbo : buffer)
    (n : Int) :
    ∃ drv' vbo' ret, vbo.Grow fuel drv n = some (drv', vbo', ret)
      ∧ (ret = false ↔ n < vbo.size) ∧ (ret = true ↔ ¬ n < vbo.size)
      ∧ (ret = false → vbo'.glId = vbo.glId ∧ vbo'.size = vbo.size ∧ vbo'.flags = vbo.flags
          ∧ vbo'.immutable = vbo.immutable ∧ drv'.calls = drv.calls
          ∧ drv'.buffers = drv.buffers ∧ drv' = drv) := by
  by_cases h : n < vbo.size
  · exact ⟨drv, vbo, false, Grow_lt fuel drv vbo n h, by simp [h], by simp [h],
      fun _ => ⟨rfl, rfl, rfl, rfl, rfl, rfl, rfl⟩⟩
  · obtain ⟨r, hr, -⟩ := growNewSize_total fuel vbo.size n hf (by omega)
    exact ⟨_, _, true, Grow_ge fuel drv vbo n r h hr, by simp [h], by simp [h],
      fun c => by simp at c⟩

/-- A fresh buffer object given storage of `r >= 0` bytes holds exactly `r` bytes. -/
theorem storage_on_fresh (d1 : Driver) (c : Nat) (r : Int) (flags : Nat) (hr : 0 ≤ r)
    (hc : d1.data c = some []) :
    ∃ z, (gl.NamedBufferStorage d1 c r none flags).data c = some z ∧ z.length = r.toNat := by
  rw [NamedBufferStorage_data d1 c r none flags [] hc]
  by_cases h : 0 < r
  · exact ⟨_, by rw [if_pos ⟨rfl, h⟩], by simp [readBytes]⟩
  · refine ⟨[], by rw [if_neg (fun e => h e.2)]; exact hc, ?_⟩
    have : r = 0 := by omega
    subst this; rfl

/-- What the reallocation of `Grow` leaves in the driver, on both paths. -/
theorem growRealloc_contents (drv : Driver) (vbo : buffer) (r : Int) (old : List Nat)
    (hold : drv.data vbo.glId = some old) (hs0 : 0 ≤ vbo.size)
    (hlen : vbo.size ≤ (old.length : Int)) (hr : vbo.size ≤ r) :
    ∃ new, (growRealloc drv vbo r).1.data (growRealloc drv vbo r).2.glId = some new
      ∧ (new.length : Int) = r ∧ new.take vbo.size.toNat = old.take vbo.size.toNat
      ∧ (vbo.immutable = false → (growRealloc drv vbo r).2.glId = vbo.glId)
      ∧ (vbo.immutable = true → (growRealloc drv vbo r).2.glId = (gl.CreateBuffers drv).2
          ∧ drv.data (growRealloc drv vbo r).2.glId = none
          ∧ (growRealloc drv vbo r).1.data vbo.glId = none) := by
  have hfresh := CreateBuffers_fresh drv
  have hne : vbo.glId ≠ (gl.CreateBuffers drv).2 := by
    intro e; rw [← e, hold] at hfresh; cases hfresh
  have h1c : (gl.CreateBuffers drv).1.data (gl.CreateBuffers drv).2 = some [] := by
    rw [CreateBuffers_data, if_pos rfl]
  have h1v : (gl.CreateBuffers drv).1.data vbo.glId = some old := by
    rw [CreateBuffers_data, if_neg hne, hold]
  have hsn : vbo.size.toNat ≤ old.length := by omega
  have htl : (old.take vbo.size.toNat).length = vbo.size.toNat := by
    rw [List.length_take]; omega
  by_cases him : vbo.immutable = true
  · have key : growRealloc drv vbo r =
        (gl.DeleteBuffers (gl.CopyNamedBufferSubData (gl.NamedBufferStorage
          (gl.CreateBuffers drv).1 (gl.CreateBuffers drv).2 r none vbo.flags) vbo.glId
          (gl.CreateBuffers drv).2 0 0 vbo.size) vbo.glId,
          { vbo with glId := (gl.CreateBuffers drv).2, size := r }) := by
      unfold growRealloc; rw [if_pos him]
    rw [key]
    dsimp only
    obtain ⟨z, hz, hzl⟩ := storage_on_fresh (gl.CreateBuffers drv).1 (gl.CreateBuffers drv).2 r
      vbo.flags (by omega) h1c
    have h2v : (gl.NamedBufferStorage (gl.CreateBuffers drv).1 (gl.CreateBuffers drv).2 r none
        vbo.flags).data vbo.glId = some old := by
      rw [NamedBufferStorage_data _ _ _ _ _ [] h1c, if_neg (fun e => hne e.1), h1v]
    have h3 := CopyNamedBufferSubData_data _ vbo.glId (gl.CreateBuffers drv).2 vbo.size old z
      hne h2v hz hs0 (by omega) (by omega)
    refine ⟨old.take vbo.size.toNat ++ z.drop vbo.size.toNat, ?_, ?_, ?_, ?_, ?_⟩
    · rw [DeleteBuffers_data, if_neg (Ne.symm hne), h3, if_pos rfl]
    · simp only [List.length_append, List.length_take, List.length_drop]
      omega
    · rw [List.take_append_of_le_length (by omega), List.take_take, Nat.min_self]
    · intro e; rw [e] at him; cases him
    · intro _
      exact ⟨rfl, hfresh, by rw [DeleteBuffers_data, if_pos rfl]⟩
  · have key : growRealloc drv vbo r =
        (gl.DeleteBuffers (gl.CopyNamedBufferSubData (gl.NamedBufferData
          (gl.CopyNamedBufferSubData (gl.NamedBufferStorage (gl.CreateBuffers drv).1
            (gl.CreateBuffers drv).2 vbo.size none 0) vbo.glId (gl.CreateBuffers drv).2 0 0
            vbo.size) vbo.glId r none vbo.flags) (gl.CreateBuffers drv).2 vbo.glId 0 0 vbo.size)
          (gl.CreateBuffers drv).2, { vbo with size := r }) := by
      unfold growRealloc; rw [if_neg him]
    rw [key]
    dsimp only
    obtain ⟨z, hz, hzl⟩ := storage_on_fresh (gl.CreateBuffers drv).1 (gl.CreateBuffers drv).2
      vbo.size 0 hs0 h1c
    have h2v : (gl.NamedBufferStorage (gl.CreateBuffers drv).1 (gl.CreateBuffers drv).2 vbo.size
        none 0).data vbo.glId = some old := by
      rw [NamedBufferStorage_data _ _ _ _ _ [] h1c, if_neg (fun e => hne e.1), h1v]
    have h3 := CopyNamedBufferSubData_data _ vbo.glId (gl.CreateBuffers drv).2 vbo.size old z
      hne h2v hz hs0 (by omega) (by omega)
    have hcp : old.take vbo.size.toNat ++ z.drop vbo.size.toNat = old.take vbo.size.toNat := by
      rw [List.drop_eq_nil_of_le (by omega), List.append_nil]
    rw [hcp] at h3
    have h3c := h3 (gl.CreateBuffers drv).2
    rw [if_pos rfl] at h3c
    have h3v := h3 vbo.glId
    rw [if_neg hne, h2v] at h3v
    have h4 := NamedBufferData_data _ vbo.glId r none vbo.flags old h3v
    have h4v := h4 vbo.glId
    rw [if_pos ⟨rfl, by omega⟩] at h4v
    have h4c := h4 (gl.CreateBuffers drv).2
    rw [if_neg (fun e => hne e.1.symm), h3c] at h4c
    have h5 := CopyNamedBufferSubData_data _ (gl.CreateBuffers drv).2 vbo.glId vbo.size
      (old.take vbo.size.toNat) (readBytes none r.toNat) (Ne.symm hne) h4c h4v hs0 (by omega)
      (by simp only [readBytes, List.length_replicate]; omega)
    refine ⟨(old.take vbo.size.toNat).take vbo.size.toNat
      ++ (readBytes none r.toNat).drop vbo.size.toNat, ?_, ?_, ?_, ?_, ?_⟩
    · rw [DeleteBuffers_data, if_neg hne, h5, if_pos rfl]
    · simp only [readBytes, List.length_append, List.length_take, List.length_drop,
        List.length_replicate]
      omega
    · rw [List.take_take, Nat.min_self, List.take_append_of_le_length (by omega),
        List.take_take, Nat.min_self]
    · intro _; rfl
    · intro e; exact absurd e him

/-- C4: growing keeps the contents.  The driver is a store from identifier to
byte sequence, and the buffer's identifier names an allocation that holds the
`size` bytes of the buffer.  Whenever `Grow(n)` returns true (that is,
`n >= size`), the allocation named by the buffer's identifier afterwards has
the new size and its first `size` bytes are the first `size` bytes the buffer's
allocation held before; on the mutable path the identifier is the old one, on
the immutable path it is the newly created one (not live before) and the old
identifier is released. -/
theorem Grow_preserves_contents (fuel : Nat) (hf : 5 ≤ fuel) (drv : Driver) (vbo : buffer)
    (n : Int) (old : List Nat) (hold : drv.data vbo.glId = some old) (hs0 : 0 ≤ vbo.size)
    (hlen : vbo.size ≤ (old.length : Int)) (hn : ¬ n < vbo.size) :
    ∃ drv' vbo' new, vbo.Grow fuel drv n = some (drv', vbo', true)
      ∧ drv'.data vbo'.glId = some new
      ∧ (new.length : Int) = vbo'.size
      ∧ new.take vbo.size.toNat = old.take vbo.size.toNat
      ∧ (vbo.immutable = false → vbo'.glId = vbo.glId)
      ∧ (vbo.immutable = true → vbo'.glId = (gl.CreateBuffers drv).2
          ∧ drv.data vbo'.glId = none ∧ drv'.data vbo.glId = none) := by
  obtain ⟨r, hr, -, h2⟩ := growNewSize_total fuel vbo.size n hf (by omega)
  obtain ⟨new, h3, h4, h5, h6, h7⟩ := growRealloc_contents drv vbo r old hold hs0 hlen h2
  refine ⟨_, _, new, Grow_ge fuel drv vbo n r hn hr, h3, ?_, h5, h6, h7⟩
  rw [growRealloc_size]; exact h4

/-! ## Allocation -/

/-- A successful fixed-storage allocation sets the immutable flag. -/
theorem fixed_allocation_sets_immutable (fuel : Nat) (drv : Driver) (vbo : buffer) (first : Op)
    (hfirst : first.isFixedAllocation = true) (o1 : Outcome buffer)
    (h1 : vbo.call fuel drv first = some o1) (hok : o1.panic = none) :
    o1.self.immutable = true := by
  cases first with
  | Allocate data flags =>
    simp only [buffer.call, Option.some.injEq] at h1
    subst h1
    unfold buffer.Allocate at hok ⊢
    by_cases c : vbo.immutable = true
    · rw [if_pos c] at hok; cases hok
    · rw [if_neg c] at hok ⊢
      by_cases c2 : data.binarySize = -1
      · simp only [c2, if_true] at hok; cases hok
      · simp only [c2, if_false] at hok ⊢
        cases hp : data.pointer with
        | none => rw [hp] at hok; cases hok
        | some p => rfl
  | AllocateEmpty size flags =>
    simp only [buffer.call, Option.some.injEq] at h1
    subst h1
    unfold buffer.AllocateEmpty at hok ⊢
    by_cases c : vbo.immutable = true
    · rw [if_pos c] at hok; cases hok
    · rw [if_neg c]
  | AllocateMutable _ _ => cases hfirst
  | AllocateEmptyMutable _ _ => cases hfirst
  | Grow _ => cases hfirst
  | Write _ _ => cases hfirst
  | WriteRange _ _ _ => cases hfirst
  | WriteIndex _ _ => cases hfirst

/-- Every call on an immutable buffer returns or panics with the buffer still
immutable and its flags kept; a call other than `Grow` keeps size and
identifier; an allocation call panics at once, with nothing changed. -/
theorem call_on_immutable (fuel : Nat) (hf : 5 ≤ fuel) (drv : Driver) (vbo : buffer)
    (him : vbo.immutable = true) (op : Op) :
    ∃ o, vbo.call fuel drv op = some o ∧ o.self.immutable = true ∧ o.self.flags = vbo.flags
      ∧ (op.isGrow = false → o.self.size = vbo.size ∧ o.self.glId = vbo.glId)
      ∧ (op.isAllocation = true → o.gl = drv ∧ o.self = vbo
          ∧ o.panic = some (Panic.logPanicf "VBO is immutable")) := by
  cases op with
  | Allocate data flags =>
    refine ⟨_, rfl, ?_⟩
    unfold buffer.Allocate; rw [if_pos him]
    exact ⟨him, rfl, fun _ => ⟨rfl, rfl⟩, fun _ => ⟨rfl, rfl, rfl⟩⟩
  | AllocateMutable data usage =>
    refine ⟨_, rfl, ?_⟩
    unfold buffer.AllocateMutable; rw [if_pos him]
    exact ⟨him, rfl, fun _ => ⟨rfl, rfl⟩, fun _ => ⟨rfl, rfl, rfl⟩⟩
  | AllocateEmpty size flags =>
    refine ⟨_, rfl, ?_⟩
    unfold buffer.AllocateEmpty; rw [if_pos him]
    exact ⟨him, rfl, fun _ => ⟨rfl, rfl⟩, fun _ => ⟨rfl, rfl, rfl⟩⟩
  | AllocateEmptyMutable size usage =>
    refine ⟨_, rfl, ?_⟩
    unfold buffer.AllocateEmptyMutable; rw [if_pos him]
    exact ⟨him, rfl, fun _ => ⟨rfl, rfl⟩, fun _ => ⟨rfl, rfl, rfl⟩⟩
  | Grow size =>
    obtain ⟨drv', vbo', ret, h, -, -, -, hfl, himm⟩ := Grow_total fuel hf drv vbo size
    refine ⟨{ gl := drv', self := vbo', panic := none }, ?_, ?_, hfl, ?_, ?_⟩
    · simp only [buffer.call, h]
    · exact himm.trans him
    · intro c; cases c
    · intro c; cases c
  | Write offset data =>
    refine ⟨_, rfl, ?_⟩
    unfold buffer.Write
    dsimp only
    split
    · exact ⟨him, rfl, fun _ => ⟨rfl, rfl⟩, fun c => (by cases c)⟩
    · split <;> exact ⟨him, rfl, fun _ => ⟨rfl, rfl⟩, fun c => (by cases c)⟩
  | WriteRange offset size data =>
    refine ⟨_, rfl, ?_⟩
    unfold buffer.WriteRange
    split <;> exact ⟨him, rfl, fun _ => ⟨rfl, rfl⟩, fun c => (by cases c)⟩
  | WriteIndex index data =>
    refine ⟨_, rfl, ?_⟩
    unfold buffer.WriteIndex
    dsimp only
    split
    · exact ⟨him, rfl, fun _ => ⟨rfl, rfl⟩, fun c => (by cases c)⟩
    · split <;> exact ⟨him, rfl, fun _ => ⟨rfl, rfl⟩, fun c => (by cases c)⟩

/-- A run of calls on an immutable buffer ends, with the buffer immutable and
its flags kept; a run of allocation calls only changes nothing at all. -/
theorem run_on_immutable (fuel : Nat) (hf : 5 ≤ fuel) (ops : List Op) :
    ∀ (drv : Driver) (vbo : buffer), vbo.immutable = true →
    ∃ drv2 vbo2, buffer.run fuel drv vbo ops = some (drv2, vbo2) ∧ vbo2.immutable = true
      ∧ vbo2.flags = vbo.flags
      ∧ ((∀ op, op ∈ ops → op.isGrow = false) → vbo2.size = vbo.size ∧ vbo2.glId = vbo.glId)
      ∧ ((∀ op, op ∈ ops → op.isAllocation = true) → drv2 = drv ∧ vbo2 = vbo) := by
  induction ops with
  | nil =>
    intro drv vbo him
    exact ⟨drv, vbo, rfl, him, rfl, fun _ => ⟨rfl, rfl⟩, fun _ => ⟨rfl, rfl⟩⟩
  | cons op ops ih =>
    intro drv vbo him
    obtain ⟨o, ho, hoi, hofl, hog, hoa⟩ := call_on_immutable fuel hf drv vbo him op
    obtain ⟨drv2, vbo2, hr, h2i, h2f, h2g, h2a⟩ := ih o.gl o.self hoi
    refine ⟨drv2, vbo2, ?_, h2i, h2f.trans hofl, ?_, ?_⟩
    · simp only [buffer.run, ho, hr]
    · intro hall
      have e1 := hog (hall op (List.mem_cons_self _ _))
      have e2 := h2g (fun x hx => hall x (List.mem_cons_of_mem _ hx))
      exact ⟨e2.1.trans e1.1, e2.2.trans e1.2⟩
    · intro hall
      have e1 := hoa (hall op (List.mem_cons_self _ _))
      have e2 := h2a (fun x hx => hall x (List.mem_cons_of_mem _ hx))
      exact ⟨e2.1.trans e1.1, e2.2.trans e1.2.1⟩

theorem buffer_eq (a b : buffer) (h1 : a.glId = b.glId) (h2 : a.size = b.size)
    (h3 : a.flags = b.flags) (h4 : a.immutable = b.immutable) : a = b := by
  cases a; cases b; simp_all

/-- C5: once a fixed-storage allocation (`Allocate` or `AllocateEmpty`) has
succeeded on a buffer, every later allocation call (`Allocate`,
`AllocateEmpty`, `AllocateMutable`, `AllocateEmptyMutable`, any argument)
panics with "VBO is immutable" before any change: buffer and driver state,
the call log included, are what they were before the call; and as long as
only allocation calls were tried since, buffer and driver are those the first
allocation left (the buffer's four fields also after writes, which `Grow`
alone changes). -/
theorem fixed_allocation_rejects_later_allocations (fuel : Nat) (hf : 5 ≤ fuel) (drv : Driver)
    (vbo : buffer) (first : Op) (hfirst : first.isFixedAllocation = true)
    (o1 : Outcome buffer) (h1 : vbo.call fuel drv first = some o1) (hok : o1.panic = none)
    (later : List Op) :
    o1.self.immutable = true
    ∧ ∃ drv2 vbo2, buffer.run fuel o1.gl o1.self later = some (drv2, vbo2)
      ∧ (∀ a : Op, a.isAllocation = true →
          ∃ o, vbo2.call fuel drv2 a = some o
            ∧ o.panic = some (Panic.logPanicf "VBO is immutable")
            ∧ o.self = vbo2 ∧ o.gl = drv2 ∧ o.gl.calls = drv2.calls
            ∧ o.gl.buffers = drv2.buffers)
      ∧ ((∀ op, op ∈ later → op.isAllocation = true) → vbo2 = o1.self ∧ drv2 = o1.gl)
      ∧ ((∀ op, op ∈ later → op.isGrow = false) → vbo2 = o1.self) := by
  have him := fixed_allocation_sets_immutable fuel drv vbo first hfirst o1 h1 hok
  obtain ⟨drv2, vbo2, hr, h2i, h2f, h2g, h2a⟩ :=
    run_on_immutable fuel hf later o1.gl o1.self him
  refine ⟨him, drv2, vbo2, hr, ?_, fun hall => ⟨(h2a hall).2, (h2a hall).1⟩,
    fun hall => buffer_eq _ _ (h2g hall).2 (h2g hall).1 h2f (h2i.trans him.symm)⟩
  intro a ha
  obtain ⟨o, ho, -, -, -, hoa⟩ := call_on_immutable fuel hf drv2 vbo2 h2i a
  obtain ⟨e1, e2, e3⟩ := hoa ha
  exact ⟨o, ho, e3, e2, e1, by rw [e1], by rw [e1]⟩

/-- What a returned allocation call stores: the flags argument converted to
`uint32`, and the size asked for. -/
theorem allocation_stores (fuel : Nat) (drv : Driver) (vbo : buffer) (first : Op)
    (hfirst : first.isAllocation = true) (o1 : Outcome buffer)
    (h1 : vbo.call fuel drv first = some o1) (hok : o1.panic = none) :
    o1.self.flags = toUint32 first.flagsArg ∧ o1.self.size = first.sizeArg := by
  cases first with
  | Allocate data flags =>
    simp only [buffer.call, Option.some.injEq] at h1
    subst h1
    unfold buffer.Allocate at hok ⊢
    by_cases c : vbo.immutable = true
    · rw [if_pos c] at hok; cases hok
    · rw [if_neg c] at hok ⊢
      by_cases c2 : data.binarySize = -1
      · simp only [c2, if_true] at hok; cases hok
      · simp only [c2, if_false] at hok ⊢
        cases hp : data.pointer with
        | none => rw [hp] at hok; cases hok
        | some p => exact ⟨rfl, rfl⟩
  | AllocateMutable data usage =>
    simp only [buffer.call, Option.some.injEq] at h1
    subst h1
    unfold buffer.AllocateMutable at hok ⊢
    by_cases c : vbo.immutable = true
    · rw [if_pos c] at hok; cases hok
    · rw [if_neg c] at hok ⊢
      by_cases c2 : data.binarySize = -1
      · simp only [c2, if_true] at hok; cases hok
      · simp only [c2, if_false] at hok ⊢
        cases hp : data.pointer with
        | none => rw [hp] at hok; cases hok
        | some p => exact ⟨rfl, rfl⟩
  | AllocateEmpty size flags =>
    simp only [buffer.call, Option.some.injEq] at h1
    subst h1
    unfold buffer.AllocateEmpty at hok ⊢
    by_cases c : vbo.immutable = true
    · rw [if_pos c] at hok; cases hok
    · rw [if_neg c]; exact ⟨rfl, rfl⟩
  | AllocateEmptyMutable size usage =>
    simp only [buffer.call, Option.some.injEq] at h1
    subst h1
    unfold buffer.AllocateEmptyMutable at hok ⊢
    by_cases c : vbo.immutable = true
    · rw [if_pos c] at hok; cases hok
    · rw [if_neg c]; exact ⟨rfl, rfl⟩
  | Grow _ => cases hfirst
  | Write _ _ => cases hfirst
  | WriteRange _ _ _ => cases hfirst
  | WriteIndex _ _ => cases hfirst

/-- Every call on any buffer returns or panics; unless it is an allocation
call that returns, it keeps the flags and the immutable flag, and unless it is
`Grow` also the size. -/
theorem call_keeps (fuel : Nat) (hf : 5 ≤ fuel) (drv : Driver) (vbo : buffer) (op : Op) :
    ∃ o, vbo.call fuel drv op = some o
      ∧ ((op.isAllocation = true → o.panic ≠ none) →
          o.self.flags = vbo.flags ∧ o.self.immutable = vbo.immutable
            ∧ (op.isGrow = false → o.self.size = vbo.size)) := by
  cases op with
  | Allocate data flags =>
    refine ⟨_, rfl, fun h => ?_⟩
    have hp := h rfl
    unfold buffer.Allocate at hp ⊢
    by_cases c : vbo.immutable = true
    · rw [if_pos c]; exact ⟨rfl, rfl, fun _ => rfl⟩
    · rw [if_neg c] at hp ⊢
      by_cases c2 : data.binarySize = -1
      · simp [c2]
      · simp only [c2, if_false] at hp ⊢
        cases hq : data.pointer with
        | none => exact ⟨rfl, rfl, fun _ => rfl⟩
        | some p => rw [hq] at hp; exact absurd rfl hp
  | AllocateMutable data usage =>
    refine ⟨_, rfl, fun h => ?_⟩
    have hp := h rfl
    unfold buffer.AllocateMutable at hp ⊢
    by_cases c : vbo.immutable = true
    · rw [if_pos c]; exact ⟨rfl, rfl, fun _ => rfl⟩
    · rw [if_neg c] at hp ⊢
      by_cases c2 : data.binarySize = -1
      · simp [c2]
      · simp only [c2, if_false] at hp ⊢
        cases hq : data.pointer with
        | none => exact ⟨rfl, rfl, fun _ => rfl⟩
        | some p => rw [hq] at hp; exact absurd rfl hp
  | AllocateEmpty size flags =>
    refine ⟨_, rfl, fun h => ?_⟩
    have hp := h rfl
    unfold buffer.AllocateEmpty at hp ⊢
    by_cases c : vbo.immutable = true
    · rw [if_pos c]; exact ⟨rfl, rfl, fun _ => rfl⟩
    · rw [if_neg c] at hp; exact absurd rfl hp
  | AllocateEmptyMutable size usage =>
    refine ⟨_, rfl, fun h => ?_⟩
    have hp := h rfl
    unfold buffer.AllocateEmptyMutable at hp ⊢
    by_cases c : vbo.immutable = true
    · rw [if_pos c]; exact ⟨rfl, rfl, fun _ => rfl⟩
    · rw [if_neg c] at hp; exact absurd rfl hp
  | Grow size =>
    obtain ⟨drv', vbo', ret, h, -, -, -, hfl, himm⟩ := Grow_total fuel hf drv vbo size
    refine ⟨{ gl := drv', self := vbo', panic := none }, ?_, fun _ => ⟨hfl, himm, ?_⟩⟩
    · simp only [buffer.call, h]
    · intro c; cases c
  | Write offset data =>
    refine ⟨_, rfl, fun _ => ?_⟩
    unfold buffer.Write
    dsimp only
    split
    · exact ⟨rfl, rfl, fun _ => rfl⟩
    · split <;> exact ⟨rfl, rfl, fun _ => rfl⟩
  | WriteRange offset size data =>
    refine ⟨_, rfl, fun _ => ?_⟩
    unfold buffer.WriteRange
    split <;> exact ⟨rfl, rfl, fun _ => rfl⟩
  | WriteIndex index data =>
    refine ⟨_, rfl, fun _ => ?_⟩
    unfold buffer.WriteIndex
    dsimp only
    split
    · exact ⟨rfl, rfl, fun _ => rfl⟩
    · split <;> exact ⟨rfl, rfl, fun _ => rfl⟩

/-- A run in which no allocation call returns ends, with flags and immutable
flag kept, and the size too when the run holds no `Grow`. -/
theorem run_keeps (fuel : Nat) (hf : 5 ≤ fuel) (ops : List Op) :
    ∀ (drv : Driver) (vbo : buffer), buffer.noAllocationReturns fuel drv vbo ops = true →
    ∃ drv2 vbo2, buffer.run fuel drv vbo ops = some (drv2, vbo2)
      ∧ vbo2.flags = vbo.flags ∧ vbo2.immutable = vbo.immutable
      ∧ ((∀ op, op ∈ ops → op.isGrow = false) → vbo2.size = vbo.size) := by
  induction ops with
  | nil =>
    intro drv vbo _
    exact ⟨drv, vbo, rfl, rfl, rfl, fun _ => rfl⟩
  | cons op ops ih =>
    intro drv vbo hno
    obtain ⟨o, ho, hk⟩ := call_keeps fuel hf drv vbo op
    simp only [buffer.noAllocationReturns, ho, Bool.and_eq_true, Bool.or_eq_true,
      Bool.not_eq_true', Option.isSome_iff_ne_none] at hno
    have hpan : op.isAllocation = true → o.panic ≠ none := by
      intro ha
      rcases hno.1 with e | e
      · rw [ha] at e; cases e
      · exact e
    obtain ⟨k1, k2, k3⟩ := hk hpan
    obtain ⟨drv2, vbo2, hr, r1, r2, r3⟩ := ih o.gl o.self hno.2
    refine ⟨drv2, vbo2, ?_, r1.trans k1, r2.trans k2, ?_⟩
    · simp only [buffer.run, ho, hr]
    · intro hall
      exact (r3 (fun x hx => hall x (List.mem_cons_of_mem _ hx))).trans
        (k3 (hall op (List.mem_cons_self _ _)))

/-- On an immutable buffer no allocation call ever returns. -/
theorem immutable_noAllocationReturns (fuel : Nat) (hf : 5 ≤ fuel) (ops : List Op) :
    ∀ (drv : Driver) (vbo : buffer), vbo.immutable = true →
      buffer.noAllocationReturns fuel drv vbo ops = true := by
  induction ops with
  | nil => intro _ _ _; rfl
  | cons op ops ih =>
    intro drv vbo him
    obtain ⟨o, ho, hoi, -, -, hoa⟩ := call_on_immutable fuel hf drv vbo him op
    simp only [buffer.noAllocationReturns, ho, Bool.and_eq_true, Bool.or_eq_true,
      Bool.not_eq_true', Option.isSome_iff_ne_none]
    refine ⟨?_, ih o.gl o.self hoi⟩
    cases ha : op.isAllocation with
    | false => exact Or.inl rfl
    | true =>
      right
      rw [(hoa ha).2.2]
      exact fun e => by cases e

/-- C8, as amended: the flags are fixed by the first successful allocation
until an allocation call succeeds again.  A successful allocation call (any
of the four) stores `uint32` of its flags argument and the size it asks for.
For every sequence of calls (the four allocation calls, `Write`, `WriteRange`,
`WriteIndex`, `Grow`) that follows it and in which no allocation call returns,
the run ends with the flags field still holding that value, and with that size
when the sequence holds no `Grow`; from the state reached every further call
that is not a returning allocation call keeps the flags and, unless it is
`Grow`, the size.  After a fixed-storage first allocation (`Allocate`,
`AllocateEmpty`) no allocation call returns, so all of this holds for every
sequence and every further call. -/
theorem flags_fixed_until_reallocation (fuel : Nat) (hf : 5 ≤ fuel) (drv : Driver)
    (vbo : buffer) (first : Op) (hfirst : first.isAllocation = true)
    (o1 : Outcome buffer) (h1 : vbo.call fuel drv first = some o1) (hok : o1.panic = none)
    (ops : List Op)
    (hops : first.isFixedAllocation = true
      ∨ buffer.noAllocationReturns fuel o1.gl o1.self ops = true) :
    o1.self.flags = toUint32 first.flagsArg ∧ o1.self.size = first.sizeArg
    ∧ buffer.noAllocationReturns fuel o1.gl o1.self ops = true
    ∧ ∃ drv2 vbo2, buffer.run fuel o1.gl o1.self ops = some (drv2, vbo2)
      ∧ vbo2.flags = toUint32 first.flagsArg
      ∧ ((∀ op, op ∈ ops → op.isGrow = false) → vbo2.size = first.sizeArg)
      ∧ (∀ op : Op, ∃ o, vbo2.call fuel drv2 op = some o
          ∧ ((first.isFixedAllocation = true ∨ op.isAllocation = false ∨ o.panic ≠ none) →
              o.self.flags = toUint32 first.flagsArg
                ∧ (op.isGrow = false → o.self.size = vbo2.size))) := by
  obtain ⟨hfl, hsz⟩ := allocation_stores fuel drv vbo first hfirst o1 h1 hok
  have hno : buffer.noAllocationReturns fuel o1.gl o1.self ops = true := by
    rcases hops with hfx | h
    · exact immutable_noAllocationReturns fuel hf ops o1.gl o1.self
        (fixed_allocation_sets_immutable fuel drv vbo first hfx o1 h1 hok)
    · exact h
  obtain ⟨drv2, vbo2, hr, r1, r2, r3⟩ := run_keeps fuel hf ops o1.gl o1.self hno
  refine ⟨hfl, hsz, hno, drv2, vbo2, hr, r1.trans hfl, fun hall => (r3 hall).trans hsz, ?_⟩
  intro op
  obtain ⟨o, ho, hk⟩ := call_keeps fuel hf drv2 vbo2 op
  refine ⟨o, ho, fun hcase => ?_⟩
  have hpan : op.isAllocation = true → o.panic ≠ none := by
    intro ha
    rcases hcase with hfx | hna | hp
    · have him2 : vbo2.immutable = true :=
        r2.trans (fixed_allocation_sets_immutable fuel drv vbo first hfx o1 h1 hok)
      obtain ⟨o', ho', -, -, -, hoa⟩ := call_on_immutable fuel hf drv2 vbo2 him2 op
      rw [ho] at ho'
      cases ho'
      rw [(hoa ha).2.2]
      exact fun e => by cases e
    · rw [ha] at hna; cases hna
    · exact hp
  obtain ⟨k1, -, k3⟩ := hk hpan
  exact ⟨k1.trans (r1.trans hfl), k3⟩

/-- C8, counterexample: on a buffer whose first allocation was a mutable one,
a second mutable allocation succeeds and replaces both the flags and the size,
so the flags are not fixed by the first allocation and the size is changed by
a call other than `Grow`. -/
theorem mutable_allocation_replaces_flags :
    ∃ o1 o2 : Outcome buffer,
      (NewBuffer Driver.initial).2.call 5 (NewBuffer Driver.initial).1
          (Op.AllocateEmptyMutable 16 35044) = some o1
      ∧ o1.panic = none ∧ o1.self.flags = 35044 ∧ o1.self.size = 16
      ∧ o1.self.call 5 o1.gl (Op.AllocateEmptyMutable 32 35048) = some o2
      ∧ o2.panic = none ∧ o2.self.flags = 35048 ∧ o2.self.size = 32
      ∧ o2.self.flags ≠ o1.self.flags ∧ o2.self.size ≠ o1.self.size :=
  ⟨_, _, rfl, rfl, by decide, by decide, rfl, rfl, by decide, by decide, by decide, by decide⟩

/-! ## Attachment slots -/

theorem sliceSet_some {α : Type} (xs : List α) (k : Int) (v : α) (h0 : 0 ≤ k)
    (h1 : k < xs.length) : sliceSet xs k v = some (xs.set k.toNat v) := by
  unfold sliceSet; rw [if_pos ⟨h0, h1⟩]

theorem sliceGet_set_same {α : Type} (xs : List α) (k : Int) (v : α) (h0 : 0 ≤ k)
    (h1 : k < xs.length) : sliceGet (xs.set k.toNat v) k = some v := by
  unfold sliceGet
  rw [if_pos h0, List.getElem?_set_self]
  have : k.toNat < xs.length := by omega
  simp [this]

theorem sliceGet_set_ne {α : Type} (xs : List α) (k m : Int) (v : α) (h0 : 0 ≤ k)
    (hm : 0 ≤ m) (hne : m ≠ k) : sliceGet (xs.set k.toNat v) m = sliceGet xs m := by
  simp only [sliceGet, if_pos hm]
  rw [List.getElem?_set_ne]
  intro e
  apply hne
  omega

theorem sliceGet_replicate {α : Type} (n : Nat) (a : α) (k : Int) (h0 : 0 ≤ k) (h1 : k < n) :
    sliceGet (List.replicate n a) k = some a := by
  unfold sliceGet
  rw [if_pos h0, List.getElem?_replicate]
  have : k.toNat < n := by omega
  simp [this]

/-- The slot of each index of the table. -/
theorem mapAttachmentIndex_values (fb : framebuffer) (i : Int) (hi : IsAttachmentIndex i) :
    ((0 ≤ i ∧ i < MaxAttachments) → fb.mapAttachmentIndex i = i + 2)
    ∧ (i = gl.DEPTH_ATTACHMENT → fb.mapAttachmentIndex i = 0)
    ∧ (i = gl.DEPTH_STENCIL_ATTACHMENT → fb.mapAttachmentIndex i = 0)
    ∧ (i = gl.STENCIL_ATTACHMENT → fb.mapAttachmentIndex i = 1)
    ∧ 0 ≤ fb.mapAttachmentIndex i ∧ fb.mapAttachmentIndex i < MaxAttachments + 2 := by
  unfold IsAttachmentIndex at hi
  unfold framebuffer.mapAttachmentIndex
  simp only [gl.DEPTH_ATTACHMENT, gl.DEPTH_STENCIL_ATTACHMENT, gl.STENCIL_ATTACHMENT,
    MaxAttachments] at hi ⊢
  rcases hi with ⟨h0, h1⟩ | h | h | h
  · have e1 : ¬ (i = 36096 ∨ i = 33306) := by omega
    have e2 : ¬ i = 36128 := by omega
    have e3 : wrap64 (i + 2) = i + 2 := wrap64_eq (by omega) (by omega)
    rw [if_neg e1, if_neg e2, e3]
    refine ⟨fun _ => rfl, ?_, ?_, ?_, ?_, ?_⟩ <;> omega
  · subst h; exact ⟨fun c => by omega, fun _ => rfl, fun _ => rfl, fun c => by omega,
      by decide, by decide⟩
  · subst h; exact ⟨fun c => by omega, fun c => by omega, fun c => by omega, fun _ => rfl,
      by decide, by decide⟩
  · subst h; exact ⟨fun c => by omega, fun _ => rfl, fun _ => rfl, fun c => by omega,
      by decide, by decide⟩

theorem AttachTextureLevel_self (drv : Driver) (fb : framebuffer) (i : Int) (t : texture)
    (level : Int) (hi : IsAttachmentIndex i)
    (hT : (fb.textures.length : Int) = MaxAttachments + 2) :
    (fb.AttachTextureLevel drv i (some t) level).panic = none
    ∧ (fb.AttachTextureLevel drv i (some t) level).self
        = { fb with textures := fb.textures.set (fb.mapAttachmentIndex i).toNat (some t) } := by
  obtain ⟨-, -, -, -, h0, h1⟩ := mapAttachmentIndex_values fb i hi
  unfold framebuffer.AttachTextureLevel
  rw [sliceSet_some _ _ _ h0 (by omega)]
  exact ⟨rfl, rfl⟩

theorem AttachRenderbuffer_self (drv : Driver) (fb : framebuffer) (i : Int) (r : renderbuffer)
    (hi : IsAttachmentIndex i)
    (hR : (fb.renderbuffers.length : Int) = MaxAttachments + 2) :
    (fb.AttachRenderbuffer drv i (some r)).panic = none
    ∧ (fb.AttachRenderbuffer drv i (some r)).self
        = { fb with
            renderbuffers := fb.renderbuffers.set (fb.mapAttachmentIndex i).toNat (some r) } := by
  obtain ⟨-, -, -, -, h0, h1⟩ := mapAttachmentIndex_values fb i hi
  unfold framebuffer.AttachRenderbuffer
  rw [sliceSet_some _ _ _ h0 (by omega)]
  exact ⟨rfl, rfl⟩

/-- Attaching a texture: the call returns, the table keeps its length, the
index reads back the texture, and an index of another slot reads what it did. -/
theorem AttachTexture_get (drv : Driver) (fb : framebuffer) (i : Int) (t : texture)
    (hi : IsAttachmentIndex i) (hT : (fb.textures.length : Int) = MaxAttachments + 2) :
    (fb.AttachTexture drv i (some t)).panic = none
    ∧ ((fb.AttachTexture drv i (some t)).self.textures.length : Int) = MaxAttachments + 2
    ∧ (fb.AttachTexture drv i (some t)).self.GetTexture i = some (some t)
    ∧ ∀ j, IsAttachmentIndex j → fb.mapAttachmentIndex j ≠ fb.mapAttachmentIndex i →
        (fb.AttachTexture drv i (some t)).self.GetTexture j = fb.GetTexture j := by
  obtain ⟨hp, hself⟩ := AttachTextureLevel_self drv fb i t 0 hi hT
  obtain ⟨-, -, -, -, h0, h1⟩ := mapAttachmentIndex_values fb i hi
  unfold framebuffer.AttachTexture
  rw [hself]
  refine ⟨hp, ?_, ?_, ?_⟩
  · simp only [List.length_set]; exact hT
  · exact sliceGet_set_same _ _ _ h0 (by omega)
  · intro j hj hne
    obtain ⟨-, -, -, -, hj0, -⟩ := mapAttachmentIndex_values fb j hj
    exact sliceGet_set_ne _ _ _ _ h0 hj0 hne

/-- Attaching a renderbuffer: as for textures, on the renderbuffer table. -/
theorem AttachRenderbuffer_get (drv : Driver) (fb : framebuffer) (i : Int) (r : renderbuffer)
    (hi : IsAttachmentIndex i) (hR : (fb.renderbuffers.length : Int) = MaxAttachments + 2) :
    (fb.AttachRenderbuffer drv i (some r)).panic = none
    ∧ ((fb.AttachRenderbuffer drv i (some r)).self.renderbuffers.length : Int)
        = MaxAttachments + 2
    ∧ (fb.AttachRenderbuffer drv i (some r)).self.GetRenderbuffer i = some (some r)
    ∧ ∀ j, IsAttachmentIndex j → fb.mapAttachmentIndex j ≠ fb.mapAttachmentIndex i →
        (fb.AttachRenderbuffer drv i (some r)).self.GetRenderbuffer j = fb.GetRenderbuffer j := by
  obtain ⟨hp, hself⟩ := AttachRenderbuffer_self drv fb i r hi hR
  obtain ⟨-, -, -, -, h0, h1⟩ := mapAttachmentIndex_values fb i hi
  rw [hself]
  refine ⟨hp, ?_, ?_, ?_⟩
  · simp only [List.length_set]; exact hR
  · exact sliceGet_set_same _ _ _ h0 (by omega)
  · intro j hj hne
    obtain ⟨-, -, -, -, hj0, -⟩ := mapAttachmentIndex_values fb j hj
    exact sliceGet_set_ne _ _ _ _ h0 hj0 hne

theorem isAttachmentIndex_zero : IsAttachmentIndex 0 := Or.inl ⟨by decide, by decide⟩

theorem isAttachmentIndex_depth : IsAttachmentIndex gl.DEPTH_ATTACHMENT := Or.inr (Or.inl rfl)

/-- C6: attachment addressing.  On a framebuffer whose two tables have the
`MaxAttachments + 2` slots `NewFramebuffer` creates, for every index `i` that is
a colour index `0 .. MaxAttachments - 1` or `DEPTH`, `STENCIL`, `DEPTH_STENCIL`
and every texture `t`: colour `i` maps to slot `i + 2`, `DEPTH` and
`DEPTH_STENCIL` to slot 0, `STENCIL` to slot 1; after `AttachTexture(i, t)`,
`GetTexture(i)` returns `t` and `GetTexture(j)` returns what it returned before
for every such `j` of another slot; attaching at colour 0 and at `DEPTH`, in
either order, leaves both readable; a new framebuffer reads absent at every
such index.  The same for `AttachRenderbuffer` and `GetRenderbuffer`. -/
theorem attach_get_addressing (drv : Driver) (fb : framebuffer)
    (hT : (fb.textures.length : Int) = MaxAttachments + 2)
    (hR : (fb.renderbuffers.length : Int) = MaxAttachments + 2)
    (i j : Int) (hi : IsAttachmentIndex i) (hj : IsAttachmentIndex j)
    (t t2 : texture) (r r2 : renderbuffer) :
    (((0 ≤ i ∧ i < MaxAttachments) → fb.mapAttachmentIndex i = i + 2)
      ∧ (i = gl.DEPTH_ATTACHMENT → fb.mapAttachmentIndex i = 0)
      ∧ (i = gl.DEPTH_STENCIL_ATTACHMENT → fb.mapAttachmentIndex i = 0)
      ∧ (i = gl.STENCIL_ATTACHMENT → fb.mapAttachmentIndex i = 1))
    ∧ ((fb.AttachTexture drv i (some t)).panic = none
      ∧ (fb.AttachTexture drv i (some t)).self.GetTexture i = some (some t)
      ∧ (fb.mapAttachmentIndex j ≠ fb.mapAttachmentIndex i →
          (fb.AttachTexture drv i (some t)).self.GetTexture j = fb.GetTexture j))
    ∧ ((fb.AttachRenderbuffer drv i (some r)).panic = none
      ∧ (fb.AttachRenderbuffer drv i (some r)).self.GetRenderbuffer i = some (some r)
      ∧ (fb.mapAttachmentIndex j ≠ fb.mapAttachmentIndex i →
          (fb.AttachRenderbuffer drv i (some r)).self.GetRenderbuffer j
            = fb.GetRenderbuffer j))
    ∧ (((fb.AttachTexture drv 0 (some t)).self.AttachTexture
            (fb.AttachTexture drv 0 (some t)).gl gl.DEPTH_ATTACHMENT (some t2)).self.GetTexture 0
          = some (some t)
      ∧ ((fb.AttachTexture drv gl.DEPTH_ATTACHMENT (some t2)).self.AttachTexture
            (fb.AttachTexture drv gl.DEPTH_ATTACHMENT (some t2)).gl 0 (some t)).self.GetTexture
            gl.DEPTH_ATTACHMENT
          = some (some t2)
      ∧ ((fb.AttachRenderbuffer drv 0 (some r)).self.AttachRenderbuffer
            (fb.AttachRenderbuffer drv 0 (some r)).gl gl.DEPTH_ATTACHMENT
            (some r2)).self.GetRenderbuffer 0
          = some (some r)
      ∧ ((fb.AttachRenderbuffer drv gl.DEPTH_ATTACHMENT (some r2)).self.AttachRenderbuffer
            (fb.AttachRenderbuffer drv gl.DEPTH_ATTACHMENT (some r2)).gl 0
            (some r)).self.GetRenderbuffer gl.DEPTH_ATTACHMENT
          = some (some r2))
    ∧ ((NewFramebuffer drv).2.GetTexture i = some none
      ∧ (NewFramebuffer drv).2.GetRenderbuffer i = some none) := by
  obtain ⟨m1, m2, m3, m4, m5, m6⟩ := mapAttachmentIndex_values fb i hi
  obtain ⟨a1, a2, a3, a4⟩ := AttachTexture_get drv fb i t hi hT
  obtain ⟨b1, b2, b3, b4⟩ := AttachRenderbuffer_get drv fb i r hi hR
  have hz := isAttachmentIndex_zero
  have hd := isAttachmentIndex_depth
  have hzd : ∀ f g : framebuffer,
      f.mapAttachmentIndex 0 ≠ g.mapAttachmentIndex gl.DEPTH_ATTACHMENT := by
    intro f g
    show framebuffer.mapAttachmentIndex _ 0 ≠ framebuffer.mapAttachmentIndex _ _
    unfold framebuffer.mapAttachmentIndex
    decide
  refine ⟨⟨m1, m2, m3, m4⟩, ⟨a1, a3, a4 j hj⟩, ⟨b1, b3, b4 j hj⟩, ⟨?_, ?_, ?_, ?_⟩, ?_, ?_⟩
  · obtain ⟨-, c2, c3, -⟩ := AttachTexture_get drv fb 0 t hz hT
    obtain ⟨-, -, -, d4⟩ := AttachTexture_get (fb.AttachTexture drv 0 (some t)).gl
      (fb.AttachTexture drv 0 (some t)).self gl.DEPTH_ATTACHMENT t2 hd c2
    rw [d4 0 hz (hzd _ _), c3]
  · obtain ⟨-, c2, c3, -⟩ := AttachTexture_get drv fb gl.DEPTH_ATTACHMENT t2 hd hT
    obtain ⟨-, -, -, d4⟩ := AttachTexture_get
      (fb.AttachTexture drv gl.DEPTH_ATTACHMENT (some t2)).gl
      (fb.AttachTexture drv gl.DEPTH_ATTACHMENT (some t2)).self 0 t hz c2
    rw [d4 gl.DEPTH_ATTACHMENT hd (fun e => hzd _ _ e.symm), c3]
  · obtain ⟨-, c2, c3, -⟩ := AttachRenderbuffer_get drv fb 0 r hz hR
    obtain ⟨-, -, -, d4⟩ := AttachRenderbuffer_get (fb.AttachRenderbuffer drv 0 (some r)).gl
      (fb.AttachRenderbuffer drv 0 (some r)).self gl.DEPTH_ATTACHMENT r2 hd c2
    rw [d4 0 hz (hzd _ _), c3]
  · obtain ⟨-, c2, c3, -⟩ := AttachRenderbuffer_get drv fb gl.DEPTH_ATTACHMENT r2 hd hR
    obtain ⟨-, -, -, d4⟩ := AttachRenderbuffer_get
      (fb.AttachRenderbuffer drv gl.DEPTH_ATTACHMENT (some r2)).gl
      (fb.AttachRenderbuffer drv gl.DEPTH_ATTACHMENT (some r2)).self 0 r hz c2
    rw [d4 gl.DEPTH_ATTACHMENT hd (fun e => hzd _ _ e.symm), c3]
  · show sliceGet (List.replicate (MaxAttachments + 2).toNat none) (fb.mapAttachmentIndex i) = _
    exact sliceGet_replicate _ _ _ m5 (by simp only [MaxAttachments] at m6 ⊢; omega)
  · show sliceGet (List.replicate (MaxAttachments + 2).toNat none) (fb.mapAttachmentIndex i) = _
    exact sliceGet_replicate _ _ _ m5 (by simp only [MaxAttachments] at m6 ⊢; omega)

/-- C10, failing input: index `MaxAttachments` passes the test
`index <= MaxAttachments` under which the attach methods add
`COLOR_ATTACHMENT0`, but its slot `MaxAttachments + 2` lies one past the end
of the tables `NewFramebuffer` creates: the attach panics with an index out of
range, leaving the framebuffer untouched, and so does the read. -/
theorem attach_at_MaxAttachments_out_of_range :
    (8 : Int) ≤ MaxAttachments
    ∧ (NewFramebuffer Driver.initial).2.textures.length = 10
    ∧ (NewFramebuffer Driver.initial).2.renderbuffers.length = 10
    ∧ (NewFramebuffer Driver.initial).2.mapAttachmentIndex 8 = 10
    ∧ ((NewFramebuffer Driver.initial).2.AttachTextureLevel (NewFramebuffer Driver.initial).1 8
        (some { glId := 1, dimensions := 3553, width := 4, height := 4, depth := 1 }) 0).panic
        = some (Panic.runtime "index out of range")
    ∧ ((NewFramebuffer Driver.initial).2.AttachRenderbuffer (NewFramebuffer Driver.initial).1 8
        (some { glId := 1 })).panic = some (Panic.runtime "index out of range")
    ∧ (NewFramebuffer Driver.initial).2.GetTexture 8 = none
    ∧ (NewFramebuffer Driver.initial).2.GetRenderbuffer 8 = none := by
  refine ⟨by decide, by decide, by decide, by decide, by decide, by decide, by decide, by decide⟩

/-! ## Completeness check -/

/-- The result of `Check` as a function of the status the driver reports. -/
theorem Check_of_status (drv : Driver) (fb : framebuffer) (target s : Nat)
    (hs : (gl.CheckNamedFramebufferStatus drv fb.glId target).2 = s) :
    (fb.Check drv target).2.2 =
      if s = 0x8CD5 then none
      else if s = 0x8CD6 then some (fmt.Errorf "an attachment is framebuffer incomplete" [])
      else if s = 0x8CD7 then some (fmt.Errorf "the framebuffer has no attachments" [])
      else if s = 0x8CDB then
        some (fmt.Errorf "the object type of a draw attachment is none" [])
      else if s = 0x8CDC then
        some (fmt.Errorf "the object type of the read attachment is none" [])
      else if s = 0x8CDD then some (fmt.Errorf
        "the combination of internal formats of the attachments is not supported" [])
      else if s = 0x8D56 then some (fmt.Errorf "the attachments have different sampling" [])
      else if s = 0x8DA8 then some (fmt.Errorf "FRAMEBUFFER_INCOMPLETE_LAYER_TARGETS" [])
      else some (fmt.Errorf "unknown framebuffer status: %X" [s]) := by
  unfold framebuffer.Check
  simp only [hs, gl.FRAMEBUFFER_COMPLETE, gl.FRAMEBUFFER_INCOMPLETE_ATTACHMENT,
    gl.FRAMEBUFFER_INCOMPLETE_MISSING_ATTACHMENT, gl.FRAMEBUFFER_INCOMPLETE_DRAW_BUFFER,
    gl.FRAMEBUFFER_INCOMPLETE_READ_BUFFER, gl.FRAMEBUFFER_UNSUPPORTED,
    gl.FRAMEBUFFER_INCOMPLETE_MULTISAMPLE, gl.FRAMEBUFFER_INCOMPLETE_LAYER_TARGETS]
  split_ifs <;> rfl

theorem Check_frame (drv : Driver) (fb : framebuffer) (target : Nat) :
    (fb.Check drv target).2.1 = fb
    ∧ (fb.Check drv target).1
        = drv.log (GlCall.CheckNamedFramebufferStatus fb.glId target) := by
  unfold framebuffer.Check
  dsimp only
  split_ifs <;> exact ⟨rfl, rfl⟩

/-- C7: `Check` as a function of the status code the driver reports.  It
returns nil exactly for `FRAMEBUFFER_COMPLETE`; each of the seven named
incomplete codes yields its own error (`FRAMEBUFFER_INCOMPLETE_MISSING_ATTACHMENT`
the one saying that the framebuffer has no attachments), and two different
codes of the seven yield different errors; every other code yields the
unknown-status error that carries the code.  The framebuffer is returned as it
was, and the driver is only asked for the status. -/
theorem Check_taxonomy (drv drv2 : Driver) (fb : framebuffer) (target : Nat) :
    ((fb.Check drv target).2.2 = none
        ↔ (gl.CheckNamedFramebufferStatus drv fb.glId target).2 = gl.FRAMEBUFFER_COMPLETE)
    ∧ ((gl.CheckNamedFramebufferStatus drv fb.glId target).2
          = gl.FRAMEBUFFER_INCOMPLETE_ATTACHMENT →
        (fb.Check drv target).2.2
          = some (fmt.Errorf "an attachment is framebuffer incomplete" []))
    ∧ ((gl.CheckNamedFramebufferStatus drv fb.glId target).2
          = gl.FRAMEBUFFER_INCOMPLETE_MISSING_ATTACHMENT →
        (fb.Check drv target).2.2 = some (fmt.Errorf "the framebuffer has no attachments" []))
    ∧ ((gl.CheckNamedFramebufferStatus drv fb.glId target).2
          = gl.FRAMEBUFFER_INCOMPLETE_DRAW_BUFFER →
        (fb.Check drv target).2.2
          = some (fmt.Errorf "the object type of a draw attachment is none" []))
    ∧ ((gl.CheckNamedFramebufferStatus drv fb.glId target).2
          = gl.FRAMEBUFFER_INCOMPLETE_READ_BUFFER →
        (fb.Check drv target).2.2
          = some (fmt.Errorf "the object type of the read attachment is none" []))
    ∧ ((gl.CheckNamedFramebufferStatus drv fb.glId target).2 = gl.FRAMEBUFFER_UNSUPPORTED →
        (fb.Check drv target).2.2 = some (fmt.Errorf
          "the combination of internal formats of the attachments is not supported" []))
    ∧ ((gl.CheckNamedFramebufferStatus drv fb.glId target).2
          = gl.FRAMEBUFFER_INCOMPLETE_MULTISAMPLE →
        (fb.Check drv target).2.2
          = some (fmt.Errorf "the attachments have different sampling" []))
    ∧ ((gl.CheckNamedFramebufferStatus drv fb.glId target).2
          = gl.FRAMEBUFFER_INCOMPLETE_LAYER_TARGETS →
        (fb.Check drv target).2.2
          = some (fmt.Errorf "FRAMEBUFFER_INCOMPLETE_LAYER_TARGETS" []))
    ∧ ((gl.CheckNamedFramebufferStatus drv fb.glId target).2 ∈ incompleteCodes →
        (gl.CheckNamedFramebufferStatus drv2 fb.glId target).2 ∈ incompleteCodes →
        (gl.CheckNamedFramebufferStatus drv fb.glId target).2
          ≠ (gl.CheckNamedFramebufferStatus drv2 fb.glId target).2 →
        (fb.Check drv target).2.2 ≠ (fb.Check drv2 target).2.2)
    ∧ ((gl.CheckNamedFramebufferStatus drv fb.glId target).2 ≠ gl.FRAMEBUFFER_COMPLETE →
        (gl.CheckNamedFramebufferStatus drv fb.glId target).2 ∉ incompleteCodes →
        (fb.Check drv target).2.2 = some (fmt.Errorf "unknown framebuffer status: %X"
          [(gl.CheckNamedFramebufferStatus drv fb.glId target).2]))
    ∧ (fb.Check drv target).2.1 = fb
    ∧ (fb.Check drv target).1.calls
        = drv.calls ++ [GlCall.CheckNamedFramebufferStatus fb.glId target]
    ∧ (fb.Check drv target).1.buffers = drv.buffers := by
  have h1 := Check_of_status drv fb target _ rfl
  have h2 := Check_of_status drv2 fb target _ rfl
  generalize (gl.CheckNamedFramebufferStatus drv fb.glId target).2 = s at h1 ⊢
  generalize (gl.CheckNamedFramebufferStatus drv2 fb.glId target).2 = s2 at h2 ⊢
  rw [h1]
  simp only [gl.FRAMEBUFFER_COMPLETE, gl.FRAMEBUFFER_INCOMPLETE_ATTACHMENT,
    gl.FRAMEBUFFER_INCOMPLETE_MISSING_ATTACHMENT, gl.FRAMEBUFFER_INCOMPLETE_DRAW_BUFFER,
    gl.FRAMEBUFFER_INCOMPLETE_READ_BUFFER, gl.FRAMEBUFFER_UNSUPPORTED,
    gl.FRAMEBUFFER_INCOMPLETE_MULTISAMPLE, gl.FRAMEBUFFER_INCOMPLETE_LAYER_TARGETS,
    incompleteCodes]
  refine ⟨?_, ?_, ?_, ?_, ?_, ?_, ?_, ?_, ?_, ?_, (Check_frame drv fb target).1, ?_, ?_⟩
  · constructor
    · intro h
      by_contra c
      rw [if_neg c] at h
      split_ifs at h
    · intro h; rw [if_pos h]
  · intro h; subst h; rfl
  · intro h; subst h; rfl
  · intro h; subst h; rfl
  · intro h; subst h; rfl
  · intro h; subst h; rfl
  · intro h; subst h; rfl
  · intro h; subst h; rfl
  · intro m1 m2 hne
    rw [h2]
    simp only [List.mem_cons, List.mem_singleton, List.not_mem_nil, or_false] at m1 m2
    rcases m1 with e | e | e | e | e | e | e <;> subst e <;>
      rcases m2 with e | e | e | e | e | e | e <;> subst e <;>
      first
        | exact absurd rfl hne
        | decide
  · intro c m
    simp only [List.mem_cons, List.mem_singleton, List.not_mem_nil, or_false, not_or] at m
    obtain ⟨n1, n2, n3, n4, n5, n6, n7⟩ := m
    rw [if_neg c, if_neg n1, if_neg n2, if_neg n3, if_neg n4, if_neg n5, if_neg n6, if_neg n7]
  · rw [(Check_frame drv fb target).2]; rfl
  · rw [(Check_frame drv fb target).2]; rfl

/-! ## Draw targets -/

theorem toUint32_wrap64 (x : Int) : toUint32 (wrap64 x) = toUint32 x := by
  unfold toUint32 wrap64; omega

/-- C9, as amended: for every non-empty list of indices `BindTargets` returns
and hands the driver, in one call, an array of draw targets of the same length
and in the same order, in which an index `v <= 8` has become
`uint32(COLOR_ATTACHMENT0 + v)` and a larger one `uint32(v)`: that is
`COLOR_ATTACHMENT0 + v` when `-COLOR_ATTACHMENT0 <= v <= 8`, and `v` itself when
`8 < v < 2^32`.  The count passed is `int32` of the length, the length itself
below `2^31`.  The framebuffer is not changed. -/
theorem BindTargets_declares (drv : Driver) (fb : framebuffer) (indices : List Int)
    (hne : indices ≠ []) :
    (fb.BindTargets drv indices).panic = none
    ∧ (fb.BindTargets drv indices).self = fb
    ∧ (∃ targets : List Nat,
        (fb.BindTargets drv indices).gl.calls = drv.calls ++
          [GlCall.NamedFramebufferDrawBuffers fb.glId (wrap32 indices.length) targets]
        ∧ targets.length = indices.length
        ∧ (∀ (k : Nat) (v : Int), indices[k]? = some v →
            targets[k]? = some (if v ≤ 8 then toUint32 (gl.COLOR_ATTACHMENT0 + v)
              else toUint32 v))
        ∧ (∀ (k : Nat) (v : Int), indices[k]? = some v → -gl.COLOR_ATTACHMENT0 ≤ v → v ≤ 8 →
            ∃ u : Nat, targets[k]? = some u ∧ (u : Int) = gl.COLOR_ATTACHMENT0 + v)
        ∧ (∀ (k : Nat) (v : Int), indices[k]? = some v → 8 < v → v < 4294967296 →
            ∃ u : Nat, targets[k]? = some u ∧ (u : Int) = v))
    ∧ ((indices.length : Int) < 2147483648 → wrap32 indices.length = indices.length) := by
  have hel : ∀ (k : Nat) (v : Int), indices[k]? = some v →
      (indices.map drawTarget)[k]? = some (if v ≤ 8 then toUint32 (gl.COLOR_ATTACHMENT0 + v)
        else toUint32 v) := by
    intro k v hk
    rw [List.getElem?_map, hk]
    simp only [Option.map_some', drawTarget, toUint32_wrap64]
  have hcall : fb.BindTargets drv indices =
      { gl := gl.NamedFramebufferDrawBuffers drv fb.glId (wrap32 indices.length)
          (indices.map drawTarget)
        self := fb, panic := none } := by
    cases indices with
    | nil => exact absurd rfl hne
    | cons a rest => rfl
  rw [hcall]
  refine ⟨rfl, rfl, ⟨indices.map drawTarget, rfl, List.length_map _ _, hel, ?_, ?_⟩, ?_⟩
  · intro k v hk h1 h2
    refine ⟨_, hel k v hk, ?_⟩
    rw [if_pos h2]
    simp only [gl.COLOR_ATTACHMENT0, toUint32] at h1 ⊢
    omega
  · intro k v hk h1 h2
    refine ⟨_, hel k v hk, ?_⟩
    rw [if_neg (by omega)]
    simp only [toUint32]
    omega
  · intro h
    unfold wrap32; omega

/-- C9, counterexample: with no index at all `BindTargets` panics on
`&attachments[0]` and issues no call; and the index `2^32 + 5`, larger than 8,
is not passed through unchanged but reaches the driver as `5`. -/
theorem BindTargets_empty_panics_and_truncates :
    ((NewFramebuffer Driver.initial).2.BindTargets (NewFramebuffer Driver.initial).1 []).panic
        = some (Panic.runtime "index out of range [0] with length 0")
    ∧ ((NewFramebuffer Driver.initial).2.BindTargets
          (NewFramebuffer Driver.initial).1 []).gl.calls
        = (NewFramebuffer Driver.initial).1.calls
    ∧ ((NewFramebuffer Driver.initial).2.BindTargets (NewFramebuffer Driver.initial).1
          [4294967301]).gl.calls
        = (NewFramebuffer Driver.initial).1.calls
            ++ [GlCall.NamedFramebufferDrawBuffers 1 1 [5]]
    ∧ ((5 : Nat) : Int) ≠ 4294967301 := by
  refine ⟨by decide, by decide, by decide, by decide⟩

/-! ## Instances -/

/-- Instance of C1: three calls on a buffer of 20000 bytes. -/
theorem Grow_size_monotone_witness :
    5 ≤ 5 ∧ ∃ bs, buffer.growAll 5 Driver.initial sampleBuffer [22000, 21000, 100000] = some bs
      ∧ List.Forall₂ (fun n b => n ≤ b.size) [22000, 21000, 100000] bs
      ∧ List.Chain (fun a b => a.size ≤ b.size) sampleBuffer bs :=
  ⟨le_refl 5, (Grow_size_monotone 5 (le_refl 5) Driver.initial sampleBuffer).2
    [22000, 21000, 100000]⟩

/-- Instance of C2: size 20000, request 22000, the 1.25x regime. -/
theorem Grow_size_selection_witness :
    ∃ drv' vbo', sampleBuffer.Grow 5 Driver.initial 22000 = some (drv', vbo', true)
      ∧ (2 * sampleBuffer.size < 22000 → vbo'.size = 22000)
      ∧ (22000 ≤ 2 * sampleBuffer.size → sampleBuffer.size < 16384 →
          vbo'.size = 2 * sampleBuffer.size)
      ∧ (22000 ≤ 2 * sampleBuffer.size → 16384 ≤ sampleBuffer.size →
          ∃ k, vbo'.size = growthSeq sampleBuffer.size k ∧ 22000 ≤ growthSeq sampleBuffer.size k
            ∧ ∀ j, j < k → growthSeq sampleBuffer.size j < 22000) :=
  (Grow_size_selection 5 (le_refl 5) Driver.initial sampleBuffer 22000 (by decide) (by decide)
    (by decide)
    (fun _ _ k hk =>
      match k, hk with
      | 0, _ => by decide
      | 1, _ => by decide
      | _ + 2, hk => absurd (hk 1 (by omega)) (by decide))).1

/-- Instance of C3: a request below the size. -/
theorem Grow_false_iff_noop_witness :
    5 ≤ 5 ∧ ∃ drv' vbo' ret, sampleBuffer.Grow 5 Driver.initial 100 = some (drv', vbo', ret)
      ∧ (ret = false ↔ (100 : Int) < sampleBuffer.size)
      ∧ (ret = true ↔ ¬ (100 : Int) < sampleBuffer.size)
      ∧ (ret = false → vbo'.glId = sampleBuffer.glId ∧ vbo'.size = sampleBuffer.size
          ∧ vbo'.flags = sampleBuffer.flags ∧ vbo'.immutable = sampleBuffer.immutable
          ∧ drv'.calls = Driver.initial.calls ∧ drv'.buffers = Driver.initial.buffers
          ∧ drv' = Driver.initial) :=
  ⟨le_refl 5, Grow_false_iff_noop 5 (le_refl 5) Driver.initial sampleBuffer 100⟩

/-- Instance of C4: a mutable buffer of four bytes grown to ten. -/
theorem Grow_preserves_contents_witness :
    ∃ drv' vbo' new, smallBuffer.Grow 5 smallDriver 10 = some (drv', vbo', true)
      ∧ drv'.data vbo'.glId = some new
      ∧ (new.length : Int) = vbo'.size
      ∧ new.take smallBuffer.size.toNat = [10, 20, 30, 40].take smallBuffer.size.toNat
      ∧ (smallBuffer.immutable = false → vbo'.glId = smallBuffer.glId)
      ∧ (smallBuffer.immutable = true → vbo'.glId = (gl.CreateBuffers smallDriver).2
          ∧ smallDriver.data vbo'.glId = none ∧ drv'.data smallBuffer.glId = none) :=
  Grow_preserves_contents 5 (le_refl 5) smallDriver smallBuffer 10 [10, 20, 30, 40] rfl
    (by decide) (by decide) (by decide)

/-- Instance of C5: `AllocateEmpty`, then `Grow` and a write, then any allocation. -/
theorem fixed_allocation_rejects_later_allocations_witness :
    allocatedOnce.self.immutable = true
    ∧ ∃ drv2 vbo2, buffer.run 5 allocatedOnce.gl allocatedOnce.self
          [Op.Grow 100, Op.WriteRange 0 4 { binarySize := 4, pointer := some [1, 2, 3, 4] }]
        = some (drv2, vbo2)
      ∧ (∀ a : Op, a.isAllocation = true →
          ∃ o, vbo2.call 5 drv2 a = some o
            ∧ o.panic = some (Panic.logPanicf "VBO is immutable")
            ∧ o.self = vbo2 ∧ o.gl = drv2 ∧ o.gl.calls = drv2.calls
            ∧ o.gl.buffers = drv2.buffers)
      ∧ ((∀ op, op ∈ [Op.Grow 100,
              Op.WriteRange 0 4 { binarySize := 4, pointer := some [1, 2, 3, 4] }] →
            op.isAllocation = true) →
          vbo2 = allocatedOnce.self ∧ drv2 = allocatedOnce.gl)
      ∧ ((∀ op, op ∈ [Op.Grow 100,
              Op.WriteRange 0 4 { binarySize := 4, pointer := some [1, 2, 3, 4] }] →
            op.isGrow = false) →
          vbo2 = allocatedOnce.self) :=
  fixed_allocation_rejects_later_allocations 5 (le_refl 5) (NewBuffer Driver.initial).1
    (NewBuffer Driver.initial).2 (Op.AllocateEmpty 16 0) rfl allocatedOnce rfl rfl
    [Op.Grow 100, Op.WriteRange 0 4 { binarySize := 4, pointer := some [1, 2, 3, 4] }]

/-- Instance of C8 as amended: a mutable allocation, then a `Grow`, a write
and an allocation call that panics for want of a fixed size. -/
theorem flags_fixed_until_reallocation_witness :
    allocatedMutable.self.flags = toUint32 (Op.AllocateEmptyMutable 16 35044).flagsArg
    ∧ allocatedMutable.self.size = (Op.AllocateEmptyMutable 16 35044).sizeArg
    ∧ buffer.noAllocationReturns 5 allocatedMutable.gl allocatedMutable.self
        [Op.Grow 100, Op.WriteRange 0 4 { binarySize := 4, pointer := some [1, 2, 3, 4] },
          Op.AllocateMutable { binarySize := -1, pointer := none } 35048] = true
    ∧ ∃ drv2 vbo2, buffer.run 5 allocatedMutable.gl allocatedMutable.self
          [Op.Grow 100, Op.WriteRange 0 4 { binarySize := 4, pointer := some [1, 2, 3, 4] },
            Op.AllocateMutable { binarySize := -1, pointer := none } 35048] = some (drv2, vbo2)
      ∧ vbo2.flags = toUint32 (Op.AllocateEmptyMutable 16 35044).flagsArg
      ∧ ((∀ op, op ∈ [Op.Grow 100,
              Op.WriteRange 0 4 { binarySize := 4, pointer := some [1, 2, 3, 4] },
              Op.AllocateMutable { binarySize := -1, pointer := none } 35048] →
            op.isGrow = false) →
          vbo2.size = (Op.AllocateEmptyMutable 16 35044).sizeArg)
      ∧ (∀ op : Op, ∃ o, vbo2.call 5 drv2 op = some o
          ∧ (((Op.AllocateEmptyMutable 16 35044).isFixedAllocation = true
                ∨ op.isAllocation = false ∨ o.panic ≠ none) →
              o.self.flags = toUint32 (Op.AllocateEmptyMutable 16 35044).flagsArg
                ∧ (op.isGrow = false → o.self.size = vbo2.size))) :=
  flags_fixed_until_reallocation 5 (le_refl 5) (NewBuffer Driver.initial).1
    (NewBuffer Driver.initial).2 (Op.AllocateEmptyMutable 16 35044) rfl allocatedMutable rfl rfl
    [Op.Grow 100, Op.WriteRange 0 4 { binarySize := 4, pointer := some [1, 2, 3, 4] },
      Op.AllocateMutable { binarySize := -1, pointer := none } 35048]
    (Or.inr (by decide))

/-- Instance of C6: colour 0 against `DEPTH` on a new framebuffer. -/
theorem attach_get_addressing_witness :
    ((NewFramebuffer Driver.initial).2.AttachTexture (NewFramebuffer Driver.initial).1 0
        (some sampleTexture)).panic = none
    ∧ ((NewFramebuffer Driver.initial).2.AttachTexture (NewFramebuffer Driver.initial).1 0
        (some sampleTexture)).self.GetTexture 0 = some (some sampleTexture)
    ∧ ((NewFramebuffer Driver.initial).2.mapAttachmentIndex gl.DEPTH_ATTACHMENT
          ≠ (NewFramebuffer Driver.initial).2.mapAttachmentIndex 0 →
        ((NewFramebuffer Driver.initial).2.AttachTexture (NewFramebuffer Driver.initial).1 0
          (some sampleTexture)).self.GetTexture gl.DEPTH_ATTACHMENT
          = (NewFramebuffer Driver.initial).2.GetTexture gl.DEPTH_ATTACHMENT) :=
  (attach_get_addressing (NewFramebuffer Driver.initial).1 (NewFramebuffer Driver.initial).2
    (by decide) (by decide) 0 gl.DEPTH_ATTACHMENT (Or.inl ⟨by decide, by decide⟩)
    (Or.inr (Or.inl rfl)) sampleTexture sampleTexture { glId := 7 } { glId := 8 }).2.1

/-- Instance of C9 as amended: two colour indices and `NONE`. -/
theorem BindTargets_declares_witness :
    ((NewFramebuffer Driver.initial).2.BindTargets (NewFramebuffer Driver.initial).1
        [0, 1, 0]).panic = none
    ∧ ((NewFramebuffer Driver.initial).2.BindTargets (NewFramebuffer Driver.initial).1
        [0, 1, 0]).self = (NewFramebuffer Driver.initial).2 :=
  ⟨(BindTargets_declares (NewFramebuffer Driver.initial).1 (NewFramebuffer Driver.initial).2
      [0, 1, 0] (by decide)).1,
    (BindTargets_declares (NewFramebuffer Driver.initial).1 (NewFramebuffer Driver.initial).2
      [0, 1, 0] (by decide)).2.1⟩

end DeferredGL
